import Mathlib

/-! UpdateRuntimeConfig (containerd CRI service, as vendored by k3s)

A shallow embedding of `criService.UpdateRuntimeConfig` from
`vendor/github.com/containerd/cri/pkg/server/update_runtime_config.go`.

The Go function talks to four things it does not implement itself: the CNI
plugin (`c.netPlugin`), `text/template`, `os` and `path/filepath`.  What the
plugin answers, which file a path names, what the template parser makes of a
file content and which single `os` calls fail are inputs of the model (the
records `CNI` and `Host`); what the function does with them, and what the `os`
calls do to the filesystem, is spelled out below.  Every run returns, next to
the Go result, the list of calls it made, in order, and the lines it logged.

Only `cniConfigTemplate`, `cniConfigFileName` and `UpdateRuntimeConfig` are
declared in the source file.  The types and helpers it uses from elsewhere
(request messages and their getters, `criService` and its configuration,
`errors.Wrapf`, the file and template operations) are modelled from what the
specification says about them; their doc comments say so.
-/

namespace CRI

/-! ## Errors -/

/-- Modelled from the spec: the Go `error` type and `errors.Wrapf` (section 7: each
failure "is wrapped with the offending resource path before propagating").  An
error is either a cause reported by a collaborator or the result of
`errors.Wrapf(err, format, arg)`; the format string and its argument are kept
apart, so the wrapped resource path can be read back. -/
inductive Error where
  | cause (msg : String)
  | wrapf (err : Error) (format : String) (arg : String)
deriving DecidableEq, Repr

/-! ## Request and response (`runtime.UpdateRuntimeConfigRequest`) -/

/-- Modelled from the spec: `runtime.NetworkConfig` (section 6: request field
`runtimeConfig.networkConfig.podCidr`, a string that may be empty). -/
structure NetworkConfig where
  PodCidr : String
deriving DecidableEq, Repr

/-- Modelled from the spec: `runtime.RuntimeConfig`; the sub-message is optional
(a nil pointer in Go). -/
structure RuntimeConfig where
  NetworkConfig : Option NetworkConfig
deriving DecidableEq, Repr

/-- Modelled from the spec: `runtime.UpdateRuntimeConfigRequest` (section 3: "carries
an optional subnet string"); the sub-message is optional. -/
structure UpdateRuntimeConfigRequest where
  RuntimeConfig : Option RuntimeConfig
deriving DecidableEq, Repr

/-- Modelled from the spec: `runtime.UpdateRuntimeConfigResponse` (section 3: "empty
success marker; no payload"). -/
structure UpdateRuntimeConfigResponse where
deriving DecidableEq, Repr

/-- Modelled from the spec: the generated getter
`(*UpdateRuntimeConfigRequest).GetRuntimeConfig`; a nil request has no runtime
config. -/
def GetRuntimeConfig : Option UpdateRuntimeConfigRequest → Option RuntimeConfig
  | none => none
  | some r => r.RuntimeConfig

/-- Modelled from the spec: the generated getter `(*RuntimeConfig).GetNetworkConfig`;
a nil runtime config has no network config. -/
def GetNetworkConfig : Option RuntimeConfig → Option NetworkConfig
  | none => none
  | some c => c.NetworkConfig

/-- Modelled from the spec: the generated getter `(*NetworkConfig).GetPodCidr`; a
missing network config reads as the empty subnet. -/
def GetPodCidr : Option NetworkConfig → String
  | none => ""
  | some n => n.PodCidr

/-! ## The service -/

/-- Modelled from the spec: the two fields of the plugin configuration that the
function reads (section 3, ReconcilerConfig: "the template resource path and the
target output directory"). -/
structure Config where
  NetworkPluginConfTemplate : String
  NetworkPluginConfDir : String
deriving DecidableEq, Repr

/-- Modelled from the spec: the options handed to `cni.CNI.Load` (section 6:
`includeLoopback`, `includeDefault`). -/
inductive CNIOpt where
  | WithLoNetwork
  | WithDefaultConf
deriving DecidableEq, Repr

/-- Modelled from the spec: the network plugin `c.netPlugin`, taken as a parameter
(section 6: `Status() -> ok | error`, `Load(options) -> ok | error`).  It is given
by what `Status()` returns and what `Load(opts...)` returns during the call;
`none` is Go's nil error. -/
structure CNI where
  Status : Option Error
  Load : List CNIOpt → Option Error

/-- Modelled from the spec: `criService`, cut down to the two fields
`UpdateRuntimeConfig` reads, `c.config` and `c.netPlugin`. -/
structure criService where
  config : Config
  netPlugin : CNI

/-- `cniConfigTemplate` contains the values containerd will overwrite in the
cni config template. -/
structure cniConfigTemplate where
  PodCIDR : String
deriving DecidableEq, Repr

/-- `cniConfigFileName` is the name of cni config file generated by containerd. -/
def cniConfigFileName : String := "10-containerd-net.conflist"

/-! ## Bytes -/

/-- The bytes of a string: its UTF-8 encoding, which is what Go writes when it
prints a string.  Strings are taken to be UTF-8 text, as protobuf string fields
and configuration values are. -/
def utf8 (s : String) : List UInt8 :=
  s.data.flatMap String.utf8EncodeChar

/-! ## Filesystem -/

/-- Modelled from the spec: the filesystem the `os` calls act on.  Regular files
are kept by file, not by name: the key of an entry is the identity of the file
(`Host.FileOf` of any path that names it) and the value is its content in
bytes.  `dirs` holds the paths known to name a directory. -/
structure FS where
  files : List (String × List UInt8)
  dirs : List String
deriving DecidableEq, Repr

/-- Content of the first entry stored under a key. -/
def lookupFile : List (String × List UInt8) → String → Option (List UInt8)
  | [], _ => none
  | (q, d) :: rest, k => if q = k then some d else lookupFile rest k

/-- Replace the content stored under a key, or add the entry at the end. -/
def setFile : List (String × List UInt8) → String → List UInt8 → List (String × List UInt8)
  | [], k, c => [(k, c)]
  | (q, d) :: rest, k, c => if q = k then (q, c) :: rest else (q, d) :: setFile rest k c

/-- Content of the regular file with the given identity, `none` when there is
none. -/
def FS.read (fs : FS) (k : String) : Option (List UInt8) :=
  lookupFile fs.files k

/-- Store a content in the file with the given identity. -/
def FS.store (fs : FS) (k : String) (c : List UInt8) : FS :=
  { fs with files := setFile fs.files k c }

/-- Record a path as a directory unless it is recorded already. -/
def FS.addDir (fs : FS) (d : String) : FS :=
  if d ∈ fs.dirs then fs else { fs with dirs := fs.dirs ++ [d] }

/-- Modelled from the spec: flags of `os.OpenFile`. -/
inductive OpenFlag where
  | O_WRONLY
  | O_CREATE
  | O_TRUNC
  | O_APPEND
deriving DecidableEq, Repr

/-- Modelled from the spec: an open `*os.File`, with the identity of the file it
is open on, the offset of the next write, and whether it was opened for
appending. -/
structure File where
  key : String
  offset : Nat
  append : Bool
deriving DecidableEq, Repr

/-- Bytes `data` written over `old` at position `pos` (`pos ≤ old.length`):
what lies before `pos` and what lies beyond the written range stays. -/
def writeAt (old : List UInt8) (pos : Nat) (data : List UInt8) : List UInt8 :=
  old.take pos ++ data ++ old.drop (pos + data.length)

/-- Modelled from the spec: `(*os.File).Write` writes at the file offset (at the
end when appending) and advances the offset; bytes of the old content beyond
the written range stay (section 4.1 step 5c: "trailing stale bytes may
remain"). -/
def File.Write (f : File) (fs : FS) (data : List UInt8) : FS × File :=
  let old := (fs.read f.key).getD []
  let pos := if f.append then old.length else f.offset
  (fs.store f.key (writeAt old pos data), { f with offset := pos + data.length })

/-! ## Templates (`text/template`) -/

/-- Modelled from the spec: a parsed `text/template` template, seen through the
one thing the function does with it (section 6:
`template.Execute(writer, context) -> error?`).  `Execute` on a `cniConfigTemplate`
produces the bytes it writes, in order, and possibly an error after them (a
failed action or a failed write). -/
structure Template where
  Execute : cniConfigTemplate → List UInt8 × Option Error

/-- Modelled from the spec: the node kinds of a cni config template: literal
text (its bytes), the field action `.PodCIDR` in double braces, and an action that cannot be
evaluated on a `cniConfigTemplate` (section 7: "referencing an unrecognized
field"), given with the error `text/template` reports for it. -/
inductive Node where
  | text (bytes : List UInt8)
  | podCIDR
  | failing (err : Error)
deriving DecidableEq, Repr

/-- Modelled from the spec: execution of a node list on a `cniConfigTemplate`
(section 4.1 step 5d and section 7).  The bytes of a text are copied, the field
`PodCIDR` is printed as it is ("passed through verbatim"), a failing action
stops the execution with its error after what was written so far. -/
def execNodes : List Node → cniConfigTemplate → List UInt8 × Option Error
  | [], _ => ([], none)
  | .text bytes :: rest, d => (bytes ++ (execNodes rest d).1, (execNodes rest d).2)
  | .podCIDR :: rest, d => (utf8 d.PodCIDR ++ (execNodes rest d).1, (execNodes rest d).2)
  | .failing err :: _, _ => ([], some err)

/-- The template with the given nodes. -/
def Template.ofNodes (ns : List Node) : Template := ⟨execNodes ns⟩

/-! ## The host: `text/template`, `os`, `path/filepath` -/

/-- Modelled from the spec: what the function's library calls depend on beyond
the filesystem content, taken as parameters.
`FileOf path` is the identity of the file the path names: two paths have the
same identity exactly when they lead to the same file, be it through `.` and
`..` elements, repeated separators, symbolic links or hard links.
`ReadFile name` is the error of reading the file when it cannot be read though
it exists.  `Parse name content` is what `text/template` makes of a file
content.  `Mkdir path perm` is the error of creating that one directory, if
any.  `OpenFile name flags perm` is the error of the open call, if any.  `Join`
is `filepath.Join` on two elements. -/
structure Host where
  FileOf : String → String
  ReadFile : String → Option Error
  Parse : String → List UInt8 → Except Error Template
  Mkdir : String → Nat → Option Error
  OpenFile : String → List OpenFlag → Nat → Option Error
  Join : String → String → String

/-- Modelled from the spec: `template.ParseFiles(name)` reads the file and parses
its content (section 4.1 step 5a); a missing file is the error of the failed
open. -/
def templateParseFiles (h : Host) (fs : FS) (name : String) : Except Error Template :=
  match h.ReadFile name with
  | some e => .error e
  | none =>
    match fs.read (h.FileOf name) with
    | none => .error (.cause ("open " ++ name ++ ": no such file or directory"))
    | some content => h.Parse name content

/-- The path `MkdirAll` creates before it creates `path`: `path` without its
trailing separators, its last element and the separator before that; `none`
when nothing but a root or a single element is left. -/
def parentDir (path : String) : Option String :=
  if 1 < ((path.data.reverse.dropWhile (· == '/')).dropWhile (· != '/')).length then
    some (String.mk
      (((path.data.reverse.dropWhile (· == '/')).dropWhile (· != '/')).drop 1).reverse)
  else none

/-- Modelled from the spec: the `os.Mkdir` call at the end of `os.MkdirAll`.  When
it fails and the path is a directory all the same, `MkdirAll` reports success. -/
def mkdirLast (h : Host) (perm : Nat) (fs : FS) (path : String) : FS × Option Error :=
  match h.Mkdir path perm with
  | some e => if path ∈ fs.dirs then (fs, none) else (fs, some e)
  | none => (fs.addDir path, none)

/-- Modelled from the spec: the recursion of `os.MkdirAll` (section 4.1 step 5b:
"create recursively if absent").  A path that is a directory is left alone, a
path that is a regular file is an error, otherwise the parent is created first
and then the path.  The first argument bounds the depth of the recursion; the
length of the path is enough, since every parent is shorter than its child. -/
def mkdirAllAux (h : Host) (perm : Nat) : Nat → FS → String → FS × Option Error
  | 0, fs, path =>
    if path ∈ fs.dirs then (fs, none)
    else if fs.read (h.FileOf path) ≠ none then
      (fs, some (.cause ("mkdir " ++ path ++ ": not a directory")))
    else mkdirLast h perm fs path
  | n + 1, fs, path =>
    if path ∈ fs.dirs then (fs, none)
    else if fs.read (h.FileOf path) ≠ none then
      (fs, some (.cause ("mkdir " ++ path ++ ": not a directory")))
    else
      match parentDir path with
      | none => mkdirLast h perm fs path
      | some parent =>
        match mkdirAllAux h perm n fs parent with
        | (fs1, some e) => (fs1, some e)
        | (fs1, none) => mkdirLast h perm fs1 path

/-- Modelled from the spec: `os.MkdirAll(path, perm)`. -/
def osMkdirAll (h : Host) (fs : FS) (path : String) (perm : Nat) : FS × Option Error :=
  mkdirAllAux h perm path.length fs path

/-- The parents `MkdirAll` may create on the way to a path, topmost first. -/
def ancestorsAux : Nat → String → List String
  | 0, _ => []
  | n + 1, path =>
    match parentDir path with
    | none => []
    | some parent => ancestorsAux n parent ++ [parent]

/-- A path with the parents `MkdirAll` may create for it, topmost first. -/
def dirChain (path : String) : List String :=
  ancestorsAux path.length path ++ [path]

/-- Modelled from the spec: `os.OpenFile` (section 4.1 step 5c).  It fails when the
host says so, or when the file is missing and `O_CREATE` is not given; it
creates a missing file empty with `O_CREATE`; it empties an existing file only
with `O_TRUNC`.  The offset of the new handle is 0. -/
def osOpenFile (h : Host) (fs : FS) (name : String) (flags : List OpenFlag) (perm : Nat) :
    Except Error (FS × File) :=
  match h.OpenFile name flags perm with
  | some e => .error e
  | none =>
    match fs.read (h.FileOf name) with
    | none =>
      if OpenFlag.O_CREATE ∈ flags then
        .ok (fs.store (h.FileOf name) [], ⟨h.FileOf name, 0, decide (OpenFlag.O_APPEND ∈ flags)⟩)
      else .error (.cause ("open " ++ name ++ ": no such file or directory"))
    | some _ =>
      if OpenFlag.O_TRUNC ∈ flags then
        .ok (fs.store (h.FileOf name) [], ⟨h.FileOf name, 0, decide (OpenFlag.O_APPEND ∈ flags)⟩)
      else .ok (fs, ⟨h.FileOf name, 0, decide (OpenFlag.O_APPEND ∈ flags)⟩)

/-- Modelled from the spec: `(*template.Template).Execute(f, data)`.  What the
template produces is written to the file, then its error (if any) is
returned. -/
def Template.ExecuteTo (t : Template) (f : File) (fs : FS) (data : cniConfigTemplate) :
    FS × File × Option Error :=
  ((f.Write fs (t.Execute data).1).1, (f.Write fs (t.Execute data).1).2, (t.Execute data).2)

/-! ## Calls and log lines -/

/-- One call made by the function to a collaborator. -/
inductive Event where
  | status
  | load (opts : List CNIOpt)
  | parseFiles (name : String)
  | mkdirAll (path : String) (perm : Nat)
  | openFile (name : String) (flags : List OpenFlag) (perm : Nat)
  | execute (name : String) (data : cniConfigTemplate) (written : List UInt8)
  | close (name : String)
deriving DecidableEq, Repr

/-- One `log.G(ctx).Info`/`Infof` line: format string and arguments. -/
structure LogLine where
  format : String
  args : List String
deriving DecidableEq, Repr

/-- What a call leaves behind: the Go result (`.ok resp` for `(resp, nil)`,
`.error err` for `(nil, err)`), the service, the filesystem, the calls made and
the lines logged. -/
structure Outcome where
  result : Except Error UpdateRuntimeConfigResponse
  c : criService
  fs : FS
  events : List Event
  logs : List LogLine

/-- `UpdateRuntimeConfig` updates the runtime config. Currently only handles
podCIDR updates. -/
def UpdateRuntimeConfig (h : Host) (c : criService) (fs : FS)
    (r : Option UpdateRuntimeConfigRequest) : Outcome :=
  let podCIDR := GetPodCidr (GetNetworkConfig (GetRuntimeConfig r))
  if podCIDR = "" then
    ⟨.ok {}, c, fs, [], []⟩
  else
    let confTemplate := c.config.NetworkPluginConfTemplate
    if confTemplate = "" then
      ⟨.ok {}, c, fs, [],
        [⟨"No cni config template is specified, wait for other system components to drop the config.", []⟩]⟩
    else
      match c.netPlugin.Status with
      | none =>
        ⟨.ok {}, c, fs, [.status],
          [⟨"Network plugin is ready, skip generating cni config from template %q", [confTemplate]⟩]⟩
      | some _ =>
        match c.netPlugin.Load [.WithLoNetwork, .WithDefaultConf] with
        | none =>
          ⟨.ok {}, c, fs, [.status, .load [.WithLoNetwork, .WithDefaultConf]],
            [⟨"CNI config is successfully loaded, skip generating cni config from template %q", [confTemplate]⟩]⟩
        | some _ =>
          let logs : List LogLine := [⟨"Generating cni config from template %q", [confTemplate]⟩]
          let ev0 : List Event :=
            [.status, .load [.WithLoNetwork, .WithDefaultConf], .parseFiles confTemplate]
          match templateParseFiles h fs confTemplate with
          | .error err =>
            ⟨.error (.wrapf err "failed to parse cni config template %q" confTemplate), c, fs, ev0, logs⟩
          | .ok t =>
            let ev1 := ev0 ++ [.mkdirAll c.config.NetworkPluginConfDir 0o755]
            match osMkdirAll h fs c.config.NetworkPluginConfDir 0o755 with
            | (fs1, some err) =>
              ⟨.error (.wrapf err "failed to create cni config directory: %q" c.config.NetworkPluginConfDir),
                c, fs1, ev1, logs⟩
            | (fs1, none) =>
              let confFile := h.Join c.config.NetworkPluginConfDir cniConfigFileName
              let ev2 := ev1 ++ [.openFile confFile [.O_WRONLY, .O_CREATE] 0o644]
              match osOpenFile h fs1 confFile [.O_WRONLY, .O_CREATE] 0o644 with
              | .error err =>
                ⟨.error (.wrapf err "failed to open cni config file %q" confFile), c, fs1, ev2, logs⟩
              | .ok (fs2, f) =>
                let data : cniConfigTemplate := { PodCIDR := podCIDR }
                let ev3 := ev2 ++ [.execute confFile data (t.Execute data).1, .close confFile]
                match t.ExecuteTo f fs2 data with
                | (fs3, _, some err) =>
                  ⟨.error (.wrapf err "failed to generate cni config file %q" confFile), c, fs3, ev3, logs⟩
                | (fs3, _, none) =>
                  ⟨.ok {}, c, fs3, ev3, logs⟩

/-! ## Names used in the statements -/

/-- The pod CIDR of a request, read the way the function reads it. -/
def requestPodCidr (r : Option UpdateRuntimeConfigRequest) : String :=
  GetPodCidr (GetNetworkConfig (GetRuntimeConfig r))

/-- The path of the generated file: `filepath.Join(NetworkPluginConfDir, cniConfigFileName)`. -/
def confFilePath (h : Host) (c : criService) : String :=
  h.Join c.config.NetworkPluginConfDir cniConfigFileName

/-- The two options the function passes to `Load`. -/
def loadOpts : List CNIOpt := [.WithLoNetwork, .WithDefaultConf]

/-- The call reaches generation: the subnet is not empty, a template is
configured, the status probe fails and the config loader fails. -/
def ReachesGeneration (c : criService) (r : Option UpdateRuntimeConfigRequest) : Prop :=
  requestPodCidr r ≠ "" ∧ c.config.NetworkPluginConfTemplate ≠ "" ∧
    c.netPlugin.Status ≠ none ∧ c.netPlugin.Load loadOpts ≠ none

instance (c : criService) (r : Option UpdateRuntimeConfigRequest) :
    Decidable (ReachesGeneration c r) := by
  unfold ReachesGeneration; infer_instance

/-- The three calls every generating run starts with. -/
def probeEvents (c : criService) : List Event :=
  [.status, .load loadOpts, .parseFiles c.config.NetworkPluginConfTemplate]

/-- A call that reads or changes the filesystem. -/
def Event.isFsAccess : Event → Bool
  | .status => false
  | .load _ => false
  | _ => true

/-- A directory creation call. -/
def Event.isMkdir : Event → Bool
  | .mkdirAll _ _ => true
  | _ => false

/-- A call that creates a file or writes into one. -/
def Event.isFileWrite : Event → Bool
  | .openFile _ _ _ => true
  | .execute _ _ _ => true
  | _ => false

/-- Number of positions at which `pat` occurs in a byte sequence as a block of
consecutive bytes. -/
def countOcc (pat : List UInt8) : List UInt8 → Nat
  | [] => if pat = [] then 1 else 0
  | x :: xs => (if pat.isPrefixOf (x :: xs) then 1 else 0) + countOcc pat xs

/-- What a previous content keeps beyond its first `n` bytes: the stale bytes
that a write of `n` bytes from offset 0 leaves in place. -/
def staleTail (old : Option (List UInt8)) (n : Nat) : List UInt8 :=
  (old.getD []).drop n

/-- The Go result of a run whose `Execute` ended with the given error. -/
def renderResult (h : Host) (c : criService) :
    Option Error → Except Error UpdateRuntimeConfigResponse
  | none => .ok {}
  | some err => .error (.wrapf err "failed to generate cni config file %q" (confFilePath h c))

/-- The calls of a run that gets as far as rendering. -/
def generateEvents (h : Host) (c : criService) (data : cniConfigTemplate) (written : List UInt8) :
    List Event :=
  probeEvents c ++ [.mkdirAll c.config.NetworkPluginConfDir 0o755,
    .openFile (confFilePath h c) [.O_WRONLY, .O_CREATE] 0o644,
    .execute (confFilePath h c) data written, .close (confFilePath h c)]

/-! ## A concrete node -/

/-- A template with one placeholder, as an operator would write it. -/
def exTemplate : Template :=
  Template.ofNodes [.text (utf8 "subnet="), .podCIDR, .text (utf8 ";")]

/-- What the template parser makes of the template texts used below; a comment
action produces nothing, and closing braces outside an action are text. -/
def exParse (content : List UInt8) : Except Error Template :=
  if content = utf8 "subnet=\x7b\x7b.PodCIDR\x7d\x7d;" then .ok exTemplate
  else if content = utf8 "\x7b\x7b/* written by the operator */\x7d\x7dsubnet=\x7b\x7b.PodCIDR\x7d\x7d;" then
    .ok exTemplate
  else if content = utf8 "subnet=10.244.1.0/24;perator */\x7d\x7dsubnet=\x7b\x7b.PodCIDR\x7d\x7d;" then
    .ok (Template.ofNodes
      [.text (utf8 "subnet=10.244.1.0/24;perator */\x7d\x7dsubnet="), .podCIDR, .text (utf8 ";")])
  else if content = utf8 "10.244.1.0/24 subnet=\x7b\x7b.PodCIDR\x7d\x7d" then
    .ok (Template.ofNodes [.text (utf8 "10.244.1.0/24 subnet="), .podCIDR])
  else .error (.cause "template: unexpected content")

/-- A host on which every library call succeeds.  The one path with a `.`
element used below names the same file as its cleaned form. -/
def exHost : Host where
  FileOf := fun path =>
    if path = "/etc/cni/net.d/./10-containerd-net.conflist" then
      "/etc/cni/net.d/10-containerd-net.conflist"
    else path
  ReadFile := fun _ => none
  Parse := fun _ content => exParse content
  Mkdir := fun _ _ => none
  OpenFile := fun _ _ _ => none
  Join := fun dir name => dir ++ "/" ++ name

/-- Template and output directory of the example node. -/
def exConfig : Config := ⟨"/etc/containerd/cni.tmpl", "/etc/cni/net.d"⟩

/-- A plugin that is not ready and finds no configuration to load. -/
def cniDown : CNI := ⟨some (.cause "cni plugin not initialized"), fun _ => some (.cause "no network config found")⟩

/-- A plugin that is ready. -/
def cniReady : CNI := ⟨none, fun _ => some (.cause "no network config found")⟩

/-- A plugin that is not ready but loads an existing configuration. -/
def cniLoads : CNI := ⟨some (.cause "cni plugin not initialized"), fun _ => none⟩

/-- A request carrying the given subnet. -/
def mkRequest (podCidr : String) : Option UpdateRuntimeConfigRequest :=
  some ⟨some ⟨some ⟨podCidr⟩⟩⟩

/-- The request of the scenarios: subnet 10.244.1.0/24. -/
def exRequest : Option UpdateRuntimeConfigRequest := mkRequest "10.244.1.0/24"

/-- A fresh node: the template is there, the cni directories are not. -/
def exFS : FS :=
  ⟨[("/etc/containerd/cni.tmpl", utf8 "subnet=\x7b\x7b.PodCIDR\x7d\x7d;")],
   ["/etc", "/etc/containerd"]⟩

/-- The example node after an earlier run for the longer subnet 10.244.100.0/24. -/
def staleFS : FS :=
  ⟨[("/etc/containerd/cni.tmpl", utf8 "subnet=\x7b\x7b.PodCIDR\x7d\x7d;"),
    ("/etc/cni/net.d/10-containerd-net.conflist", utf8 "subnet=10.244.100.0/24;")],
   ["/etc", "/etc/containerd", "/etc/cni", "/etc/cni/net.d"]⟩

/-- The example node after an earlier run with a longer template that named the
subnet twice. -/
def staleTwiceFS : FS :=
  ⟨[("/etc/containerd/cni.tmpl", utf8 "subnet=\x7b\x7b.PodCIDR\x7d\x7d;"),
    ("/etc/cni/net.d/10-containerd-net.conflist", utf8 "subnet=10.244.1.0/24;route=10.244.1.0/24;")],
   ["/etc", "/etc/containerd", "/etc/cni", "/etc/cni/net.d"]⟩

/-- A node whose template text itself holds the subnet before the placeholder. -/
def literalFS : FS :=
  ⟨[("/etc/containerd/cni.tmpl", utf8 "10.244.1.0/24 subnet=\x7b\x7b.PodCIDR\x7d\x7d")],
   ["/etc", "/etc/containerd"]⟩

/-- A configuration whose template path is the path of the generated file. -/
def aliasConfig : Config := ⟨"/etc/cni/net.d/10-containerd-net.conflist", "/etc/cni/net.d"⟩

/-- A configuration whose template path names the generated file through a `.`
element. -/
def dottedConfig : Config := ⟨"/etc/cni/net.d/./10-containerd-net.conflist", "/etc/cni/net.d"⟩

/-- The filesystem of a node whose template text sits in the output directory
under the name of the generated file. -/
def aliasFS : FS :=
  ⟨[("/etc/cni/net.d/10-containerd-net.conflist", utf8 "subnet=\x7b\x7b.PodCIDR\x7d\x7d;")],
   ["/etc", "/etc/cni", "/etc/cni/net.d"]⟩

/-- The same node with a template that starts with a comment. -/
def commentFS : FS :=
  ⟨[("/etc/cni/net.d/10-containerd-net.conflist",
      utf8 "\x7b\x7b/* written by the operator */\x7d\x7dsubnet=\x7b\x7b.PodCIDR\x7d\x7d;")],
   ["/etc", "/etc/cni", "/etc/cni/net.d"]⟩

/-! ## Filesystem lemmas -/

theorem lookupFile_setFile_same (l : List (String × List UInt8)) (k : String) (c : List UInt8) :
    lookupFile (setFile l k c) k = some c := by
  induction l with
  | nil => simp [setFile, lookupFile]
  | cons x rest ih =>
    obtain ⟨q, d⟩ := x
    by_cases hq : q = k
    · simp [setFile, lookupFile, hq]
    · simp [setFile, lookupFile, hq, ih]

theorem lookupFile_setFile_other (l : List (String × List UInt8)) (k q : String) (c : List UInt8)
    (hne : q ≠ k) : lookupFile (setFile l k c) q = lookupFile l q := by
  induction l with
  | nil =>
    have hkq : ¬ k = q := fun e => hne e.symm
    simp [setFile, lookupFile, hkq]
  | cons x rest ih =>
    obtain ⟨j, d⟩ := x
    by_cases hj : j = k
    · have hkq : ¬ k = q := fun e => hne e.symm
      simp [setFile, lookupFile, hj, hkq]
    · by_cases hjq : j = q
      · subst hjq
        simp [setFile, lookupFile, hj]
      · simp [setFile, lookupFile, hj, hjq, ih]

theorem setFile_setFile (l : List (String × List UInt8)) (k : String) (c d : List UInt8) :
    setFile (setFile l k c) k d = setFile l k d := by
  induction l with
  | nil => simp [setFile]
  | cons x rest ih =>
    obtain ⟨j, e⟩ := x
    by_cases hj : j = k
    · simp [setFile, hj]
    · simp [setFile, hj, ih]

theorem FS.read_store_same (fs : FS) (k : String) (c : List UInt8) :
    (fs.store k c).read k = some c :=
  lookupFile_setFile_same fs.files k c

theorem FS.read_store_other (fs : FS) (k q : String) (c : List UInt8) (hne : q ≠ k) :
    (fs.store k c).read q = fs.read q :=
  lookupFile_setFile_other fs.files k q c hne

theorem FS.store_store (fs : FS) (k : String) (c d : List UInt8) :
    (fs.store k c).store k d = fs.store k d := by
  simp [FS.store, setFile_setFile]

theorem FS.dirs_store (fs : FS) (k : String) (c : List UInt8) :
    (fs.store k c).dirs = fs.dirs := rfl

theorem FS.files_addDir (fs : FS) (d : String) : (fs.addDir d).files = fs.files := by
  unfold FS.addDir
  split <;> rfl

theorem FS.mem_addDir_self (fs : FS) (d : String) : d ∈ (fs.addDir d).dirs := by
  unfold FS.addDir
  split
  · assumption
  · simp

theorem FS.mem_addDir_of_mem (fs : FS) (d e : String) (he : e ∈ fs.dirs) :
    e ∈ (fs.addDir d).dirs := by
  unfold FS.addDir
  split
  · exact he
  · exact List.mem_append_left _ he

theorem FS.mem_addDir (fs : FS) (d e : String) (he : e ∈ (fs.addDir d).dirs) :
    e ∈ fs.dirs ∨ e = d := by
  unfold FS.addDir at he
  split at he
  · exact Or.inl he
  · rcases List.mem_append.mp he with h1 | h1
    · exact Or.inl h1
    · exact Or.inr (by simpa using h1)

/-- Writing at offset 0 keeps what the old content has beyond the new bytes. -/
theorem writeAt_zero (old data : List UInt8) :
    writeAt old 0 data = data ++ old.drop data.length := by
  simp [writeAt]

theorem writeAt_zero_writeAt_zero (old data : List UInt8) :
    writeAt (writeAt old 0 data) 0 data = writeAt old 0 data := by
  simp [writeAt]

/-! ## `MkdirAll` -/

theorem parentDir_length (path parent : String) (hp : parentDir path = some parent) :
    parent.length < path.length := by
  unfold parentDir at hp
  split at hp
  · rename_i hlen
    have heq := Option.some.inj hp
    rw [← heq]
    have h1 : ((path.data.reverse.dropWhile (· == '/')).dropWhile (· != '/')).length ≤
        path.data.length := by
      have s1 := (List.dropWhile_suffix (l := path.data.reverse.dropWhile (· == '/'))
        (· != '/')).length_le
      have s2 := (List.dropWhile_suffix (l := path.data.reverse) (· == '/')).length_le
      have s3 : path.data.reverse.length = path.data.length := List.length_reverse _
      omega
    show (((path.data.reverse.dropWhile (· == '/')).dropWhile (· != '/')).drop 1).reverse.length <
      path.data.length
    rw [List.length_reverse, List.length_drop]
    omega
  · exact absurd hp (by simp)

theorem mem_ancestorsAux_length (n : Nat) (path d : String) (hd : d ∈ ancestorsAux n path) :
    d.length < path.length := by
  induction n generalizing path with
  | zero => simp [ancestorsAux] at hd
  | succ n ih =>
    unfold ancestorsAux at hd
    cases hp : parentDir path with
    | none => simp [hp] at hd
    | some parent =>
      simp only [hp, List.mem_append, List.mem_singleton] at hd
      have hlt := parentDir_length path parent hp
      rcases hd with h1 | h1
      · have := ih parent h1
        omega
      · rw [h1]
        exact hlt

theorem mkdirLast_files (h : Host) (perm : Nat) (fs : FS) (path : String) :
    (mkdirLast h perm fs path).1.files = fs.files := by
  unfold mkdirLast
  cases h.Mkdir path perm with
  | none => exact FS.files_addDir fs path
  | some e => by_cases hm : path ∈ fs.dirs <;> simp [hm]

theorem mkdirLast_dirs_mono (h : Host) (perm : Nat) (fs : FS) (path d : String)
    (hd : d ∈ fs.dirs) : d ∈ (mkdirLast h perm fs path).1.dirs := by
  unfold mkdirLast
  cases h.Mkdir path perm with
  | none => exact FS.mem_addDir_of_mem fs path d hd
  | some e => by_cases hm : path ∈ fs.dirs <;> simpa [hm] using hd

theorem mkdirLast_dirs_bound (h : Host) (perm : Nat) (fs : FS) (path d : String)
    (hd : d ∈ (mkdirLast h perm fs path).1.dirs) : d ∈ fs.dirs ∨ d = path := by
  unfold mkdirLast at hd
  cases hm : h.Mkdir path perm with
  | none =>
    rw [hm] at hd
    exact FS.mem_addDir fs path d hd
  | some e =>
    rw [hm] at hd
    by_cases hmem : path ∈ fs.dirs
    · simp [hmem] at hd
      exact Or.inl hd
    · simp [hmem] at hd
      exact Or.inl hd

theorem mkdirLast_ok_mem (h : Host) (perm : Nat) (fs : FS) (path : String)
    (hok : (mkdirLast h perm fs path).2 = none) : path ∈ (mkdirLast h perm fs path).1.dirs := by
  unfold mkdirLast at hok ⊢
  cases hm : h.Mkdir path perm with
  | none => exact FS.mem_addDir_self fs path
  | some e =>
    rw [hm] at hok
    by_cases hmem : path ∈ fs.dirs
    · simp [hmem]
    · simp [hmem] at hok

theorem mkdirLast_fail (h : Host) (perm : Nat) (fs : FS) (path : String) (e : Error)
    (hfail : (mkdirLast h perm fs path).2 = some e) :
    path ∉ fs.dirs ∧ mkdirLast h perm fs path = (fs, some e) := by
  unfold mkdirLast at hfail ⊢
  cases hm : h.Mkdir path perm with
  | none => simp [hm] at hfail
  | some e2 =>
    rw [hm] at hfail
    by_cases hmem : path ∈ fs.dirs
    · simp [hmem] at hfail
    · simp [hmem] at hfail
      simp [hmem, hfail]

theorem mkdirAllAux_dir (h : Host) (perm : Nat) (n : Nat) (fs : FS) (path : String)
    (h1 : path ∈ fs.dirs) : mkdirAllAux h perm n fs path = (fs, none) := by
  cases n <;> simp [mkdirAllAux, h1]

theorem mkdirAllAux_file (h : Host) (perm : Nat) (n : Nat) (fs : FS) (path : String)
    (h1 : path ∉ fs.dirs) (h2 : fs.read (h.FileOf path) ≠ none) :
    mkdirAllAux h perm n fs path =
      (fs, some (.cause ("mkdir " ++ path ++ ": not a directory"))) := by
  cases n <;> simp [mkdirAllAux, h1, h2]

theorem mkdirAllAux_zero (h : Host) (perm : Nat) (fs : FS) (path : String)
    (h1 : path ∉ fs.dirs) (h2 : fs.read (h.FileOf path) = none) :
    mkdirAllAux h perm 0 fs path = mkdirLast h perm fs path := by
  simp [mkdirAllAux, h1, h2]

theorem mkdirAllAux_top (h : Host) (perm : Nat) (n : Nat) (fs : FS) (path : String)
    (h1 : path ∉ fs.dirs) (h2 : fs.read (h.FileOf path) = none) (h3 : parentDir path = none) :
    mkdirAllAux h perm n fs path = mkdirLast h perm fs path := by
  cases n <;> simp [mkdirAllAux, h1, h2, h3]

theorem mkdirAllAux_parent_fail (h : Host) (perm : Nat) (n : Nat) (fs : FS)
    (path parent : String) (h1 : path ∉ fs.dirs) (h2 : fs.read (h.FileOf path) = none)
    (h3 : parentDir path = some parent) (e : Error)
    (h4 : (mkdirAllAux h perm n fs parent).2 = some e) :
    mkdirAllAux h perm (n + 1) fs path = ((mkdirAllAux h perm n fs parent).1, some e) := by
  cases hr : mkdirAllAux h perm n fs parent with
  | mk fs1 e1 =>
    rw [hr] at h4
    simp only at h4
    subst h4
    simp [mkdirAllAux, h1, h2, h3, hr]

theorem mkdirAllAux_parent_ok (h : Host) (perm : Nat) (n : Nat) (fs : FS)
    (path parent : String) (h1 : path ∉ fs.dirs) (h2 : fs.read (h.FileOf path) = none)
    (h3 : parentDir path = some parent)
    (h4 : (mkdirAllAux h perm n fs parent).2 = none) :
    mkdirAllAux h perm (n + 1) fs path =
      mkdirLast h perm (mkdirAllAux h perm n fs parent).1 path := by
  cases hr : mkdirAllAux h perm n fs parent with
  | mk fs1 e1 =>
    rw [hr] at h4
    simp only at h4
    subst h4
    simp [mkdirAllAux, h1, h2, h3, hr]

/-- The ways a `MkdirAll` recursion step can go. -/
theorem mkdirAllAux_cases (h : Host) (perm : Nat) (n : Nat) (fs : FS) (path : String) :
    (path ∈ fs.dirs ∧ mkdirAllAux h perm n fs path = (fs, none)) ∨
    (path ∉ fs.dirs ∧ fs.read (h.FileOf path) ≠ none ∧
      mkdirAllAux h perm n fs path =
        (fs, some (.cause ("mkdir " ++ path ++ ": not a directory")))) ∨
    (path ∉ fs.dirs ∧ fs.read (h.FileOf path) = none ∧ (n = 0 ∨ parentDir path = none) ∧
      mkdirAllAux h perm n fs path = mkdirLast h perm fs path) ∨
    (∃ m parent e, n = m + 1 ∧ path ∉ fs.dirs ∧ fs.read (h.FileOf path) = none ∧
      parentDir path = some parent ∧ (mkdirAllAux h perm m fs parent).2 = some e ∧
      mkdirAllAux h perm n fs path = ((mkdirAllAux h perm m fs parent).1, some e)) ∨
    (∃ m parent, n = m + 1 ∧ path ∉ fs.dirs ∧ fs.read (h.FileOf path) = none ∧
      parentDir path = some parent ∧ (mkdirAllAux h perm m fs parent).2 = none ∧
      mkdirAllAux h perm n fs path =
        mkdirLast h perm (mkdirAllAux h perm m fs parent).1 path) := by
  by_cases h1 : path ∈ fs.dirs
  · exact Or.inl ⟨h1, mkdirAllAux_dir h perm n fs path h1⟩
  by_cases h2 : fs.read (h.FileOf path) = none
  swap
  · exact Or.inr (Or.inl ⟨h1, h2, mkdirAllAux_file h perm n fs path h1 h2⟩)
  cases n with
  | zero =>
    exact Or.inr (Or.inr (Or.inl ⟨h1, h2, Or.inl rfl, mkdirAllAux_zero h perm fs path h1 h2⟩))
  | succ m =>
    cases h3 : parentDir path with
    | none =>
      exact Or.inr (Or.inr (Or.inl ⟨h1, h2, Or.inr rfl,
        mkdirAllAux_top h perm _ fs path h1 h2 h3⟩))
    | some parent =>
      cases h4 : (mkdirAllAux h perm m fs parent).2 with
      | some e =>
        exact Or.inr (Or.inr (Or.inr (Or.inl ⟨m, parent, e, rfl, h1, h2, rfl, h4,
          mkdirAllAux_parent_fail h perm m fs path parent h1 h2 h3 e h4⟩)))
      | none =>
        exact Or.inr (Or.inr (Or.inr (Or.inr ⟨m, parent, rfl, h1, h2, rfl, h4,
          mkdirAllAux_parent_ok h perm m fs path parent h1 h2 h3 h4⟩)))

theorem mkdirAllAux_files (h : Host) (perm : Nat) (n : Nat) (fs : FS) (path : String) :
    (mkdirAllAux h perm n fs path).1.files = fs.files := by
  induction n generalizing path with
  | zero =>
    rcases mkdirAllAux_cases h perm 0 fs path with ⟨_, e⟩ | ⟨_, _, e⟩ | ⟨_, _, _, e⟩ |
      ⟨m, _, _, hm, _⟩ | ⟨m, _, hm, _⟩
    · rw [e]
    · rw [e]
    · rw [e]; exact mkdirLast_files h perm fs path
    · omega
    · omega
  | succ n ih =>
    rcases mkdirAllAux_cases h perm (n + 1) fs path with ⟨_, e⟩ | ⟨_, _, e⟩ | ⟨_, _, _, e⟩ |
      ⟨m, parent, err, hm, _, _, _, _, e⟩ | ⟨m, parent, hm, _, _, _, _, e⟩
    · rw [e]
    · rw [e]
    · rw [e]; exact mkdirLast_files h perm fs path
    · have hmn : m = n := by omega
      subst hmn
      rw [e]
      exact ih parent
    · have hmn : m = n := by omega
      subst hmn
      rw [e]
      exact (mkdirLast_files h perm _ path).trans (ih parent)

theorem mkdirAllAux_read (h : Host) (perm : Nat) (n : Nat) (fs : FS) (path k : String) :
    (mkdirAllAux h perm n fs path).1.read k = fs.read k := by
  unfold FS.read
  rw [mkdirAllAux_files]

theorem mkdirAllAux_dirs_mono (h : Host) (perm : Nat) (n : Nat) (fs : FS) (path d : String)
    (hd : d ∈ fs.dirs) : d ∈ (mkdirAllAux h perm n fs path).1.dirs := by
  induction n generalizing path with
  | zero =>
    rcases mkdirAllAux_cases h perm 0 fs path with ⟨_, e⟩ | ⟨_, _, e⟩ | ⟨_, _, _, e⟩ |
      ⟨m, _, _, hm, _⟩ | ⟨m, _, hm, _⟩
    · rw [e]; exact hd
    · rw [e]; exact hd
    · rw [e]; exact mkdirLast_dirs_mono h perm fs path d hd
    · omega
    · omega
  | succ n ih =>
    rcases mkdirAllAux_cases h perm (n + 1) fs path with ⟨_, e⟩ | ⟨_, _, e⟩ | ⟨_, _, _, e⟩ |
      ⟨m, parent, err, hm, _, _, _, _, e⟩ | ⟨m, parent, hm, _, _, _, _, e⟩
    · rw [e]; exact hd
    · rw [e]; exact hd
    · rw [e]; exact mkdirLast_dirs_mono h perm fs path d hd
    · have hmn : m = n := by omega
      subst hmn
      rw [e]
      exact ih parent
    · have hmn : m = n := by omega
      subst hmn
      rw [e]
      exact mkdirLast_dirs_mono h perm _ path d (ih parent)

theorem mkdirAllAux_dirs_bound (h : Host) (perm : Nat) (n : Nat) (fs : FS) (path d : String)
    (hd : d ∈ (mkdirAllAux h perm n fs path).1.dirs) :
    d ∈ fs.dirs ∨ d = path ∨ d ∈ ancestorsAux n path := by
  induction n generalizing path with
  | zero =>
    rcases mkdirAllAux_cases h perm 0 fs path with ⟨_, e⟩ | ⟨_, _, e⟩ | ⟨_, _, _, e⟩ |
      ⟨m, _, _, hm, _⟩ | ⟨m, _, hm, _⟩
    · rw [e] at hd; exact Or.inl hd
    · rw [e] at hd; exact Or.inl hd
    · rw [e] at hd
      rcases mkdirLast_dirs_bound h perm fs path d hd with h1 | h1
      · exact Or.inl h1
      · exact Or.inr (Or.inl h1)
    · omega
    · omega
  | succ n ih =>
    rcases mkdirAllAux_cases h perm (n + 1) fs path with ⟨_, e⟩ | ⟨_, _, e⟩ | ⟨_, _, _, e⟩ |
      ⟨m, parent, err, hm, _, _, hp, _, e⟩ | ⟨m, parent, hm, _, _, hp, _, e⟩
    · rw [e] at hd; exact Or.inl hd
    · rw [e] at hd; exact Or.inl hd
    · rw [e] at hd
      rcases mkdirLast_dirs_bound h perm fs path d hd with h1 | h1
      · exact Or.inl h1
      · exact Or.inr (Or.inl h1)
    · have hmn : m = n := by omega
      subst hmn
      rw [e] at hd
      rcases ih parent hd with h1 | h1 | h1
      · exact Or.inl h1
      · exact Or.inr (Or.inr (by simp [ancestorsAux, hp, h1]))
      · exact Or.inr (Or.inr (by simp [ancestorsAux, hp, h1]))
    · have hmn : m = n := by omega
      subst hmn
      rw [e] at hd
      rcases mkdirLast_dirs_bound h perm _ path d hd with h1 | h1
      · rcases ih parent h1 with h2 | h2 | h2
        · exact Or.inl h2
        · exact Or.inr (Or.inr (by simp [ancestorsAux, hp, h2]))
        · exact Or.inr (Or.inr (by simp [ancestorsAux, hp, h2]))
      · exact Or.inr (Or.inl h1)

theorem mkdirAllAux_ok_mem (h : Host) (perm : Nat) (n : Nat) (fs : FS) (path : String)
    (hok : (mkdirAllAux h perm n fs path).2 = none) :
    path ∈ (mkdirAllAux h perm n fs path).1.dirs := by
  rcases mkdirAllAux_cases h perm n fs path with ⟨h1, e⟩ | ⟨_, _, e⟩ | ⟨_, _, _, e⟩ |
    ⟨m, parent, err, hm, _, _, hp, _, e⟩ | ⟨m, parent, hm, _, _, hp, _, e⟩
  · rw [e]; exact h1
  · rw [e] at hok; simp at hok
  · rw [e] at hok ⊢; exact mkdirLast_ok_mem h perm fs path hok
  · rw [e] at hok; simp at hok
  · rw [e] at hok ⊢; exact mkdirLast_ok_mem h perm _ path hok

theorem not_mem_dirs_after_parent (h : Host) (perm : Nat) (n : Nat) (fs : FS)
    (path parent : String) (h1 : path ∉ fs.dirs) (h3 : parentDir path = some parent) :
    path ∉ (mkdirAllAux h perm n fs parent).1.dirs := by
  intro hmem
  have hlt := parentDir_length path parent h3
  rcases mkdirAllAux_dirs_bound h perm n fs parent path hmem with hb | hb | hb
  · exact h1 hb
  · rw [hb] at hlt
    omega
  · have := mem_ancestorsAux_length n parent path hb
    omega

/-- Running `MkdirAll` again on what it left gives the same filesystem and the
same error. -/
theorem mkdirAllAux_idem (h : Host) (perm : Nat) (n : Nat) (fs : FS) (path : String) :
    mkdirAllAux h perm n (mkdirAllAux h perm n fs path).1 path = mkdirAllAux h perm n fs path := by
  induction n generalizing path with
  | zero =>
    rcases mkdirAllAux_cases h perm 0 fs path with ⟨_, e⟩ | ⟨_, _, e⟩ | ⟨h1, h2, _, e⟩ |
      ⟨m, _, _, hm, _⟩ | ⟨m, _, hm, _⟩
    · rw [e]; exact e
    · rw [e]; exact e
    · rw [e]
      cases hr : (mkdirLast h perm fs path).2 with
      | none =>
        have hmem := mkdirLast_ok_mem h perm fs path hr
        rw [mkdirAllAux_dir h perm 0 _ path hmem]
        exact Prod.ext rfl hr.symm
      | some err =>
        obtain ⟨_, heq⟩ := mkdirLast_fail h perm fs path err hr
        rw [heq]
        show mkdirAllAux h perm 0 fs path = (fs, some err)
        rw [e, heq]
    · omega
    · omega
  | succ n ih =>
    rcases mkdirAllAux_cases h perm (n + 1) fs path with ⟨_, e⟩ | ⟨_, _, e⟩ | ⟨h1, h2, _, e⟩ |
      ⟨m, parent, err, hm, h1, h2, hp, hf, e⟩ | ⟨m, parent, hm, h1, h2, hp, hf, e⟩
    · rw [e]; exact e
    · rw [e]; exact e
    · rw [e]
      cases hr : (mkdirLast h perm fs path).2 with
      | none =>
        have hmem := mkdirLast_ok_mem h perm fs path hr
        rw [mkdirAllAux_dir h perm (n + 1) _ path hmem]
        exact Prod.ext rfl hr.symm
      | some err =>
        obtain ⟨_, heq⟩ := mkdirLast_fail h perm fs path err hr
        rw [heq]
        show mkdirAllAux h perm (n + 1) fs path = (fs, some err)
        rw [e, heq]
    · have hmn : m = n := by omega
      subst hmn
      rw [e]
      show mkdirAllAux h perm (m + 1) (mkdirAllAux h perm m fs parent).1 path =
        ((mkdirAllAux h perm m fs parent).1, some err)
      have hnot := not_mem_dirs_after_parent h perm m fs path parent h1 hp
      have hrd : (mkdirAllAux h perm m fs parent).1.read (h.FileOf path) = none := by
        rw [mkdirAllAux_read]; exact h2
      have hagain := ih parent
      have hf2 : (mkdirAllAux h perm m (mkdirAllAux h perm m fs parent).1 parent).2 = some err := by
        rw [hagain]; exact hf
      rw [mkdirAllAux_parent_fail h perm m _ path parent hnot hrd hp err hf2, hagain]
    · have hmn : m = n := by omega
      subst hmn
      rw [e]
      have hnot := not_mem_dirs_after_parent h perm m fs path parent h1 hp
      have hrd : (mkdirAllAux h perm m fs parent).1.read (h.FileOf path) = none := by
        rw [mkdirAllAux_read]; exact h2
      have hagain := ih parent
      cases hr : (mkdirLast h perm (mkdirAllAux h perm m fs parent).1 path).2 with
      | none =>
        have hmem := mkdirLast_ok_mem h perm _ path hr
        rw [mkdirAllAux_dir h perm (m + 1) _ path hmem]
        exact Prod.ext rfl hr.symm
      | some err =>
        obtain ⟨_, heq⟩ := mkdirLast_fail h perm _ path err hr
        rw [heq]
        show mkdirAllAux h perm (m + 1) (mkdirAllAux h perm m fs parent).1 path =
          ((mkdirAllAux h perm m fs parent).1, some err)
        have hf2 : (mkdirAllAux h perm m (mkdirAllAux h perm m fs parent).1 parent).2 = none := by
          rw [hagain]; exact hf
        rw [mkdirAllAux_parent_ok h perm m _ path parent hnot hrd hp hf2, hagain, heq]

/-- The depth bound does not matter once it reaches the length of the path:
the recursion of `MkdirAll` ends by itself. -/
theorem mkdirAllAux_fuel (h : Host) (perm : Nat) (n m : Nat) (fs : FS) (path : String)
    (hn : path.length ≤ n) (hm : path.length ≤ m) :
    mkdirAllAux h perm n fs path = mkdirAllAux h perm m fs path := by
  induction n generalizing m path with
  | zero =>
    by_cases h1 : path ∈ fs.dirs
    · rw [mkdirAllAux_dir h perm 0 fs path h1, mkdirAllAux_dir h perm m fs path h1]
    by_cases h2 : fs.read (h.FileOf path) = none
    swap
    · rw [mkdirAllAux_file h perm 0 fs path h1 h2, mkdirAllAux_file h perm m fs path h1 h2]
    cases hp : parentDir path with
    | none => rw [mkdirAllAux_top h perm 0 fs path h1 h2 hp, mkdirAllAux_top h perm m fs path h1 h2 hp]
    | some parent =>
      have := parentDir_length path parent hp
      omega
  | succ n ih =>
    by_cases h1 : path ∈ fs.dirs
    · rw [mkdirAllAux_dir h perm (n + 1) fs path h1, mkdirAllAux_dir h perm m fs path h1]
    by_cases h2 : fs.read (h.FileOf path) = none
    swap
    · rw [mkdirAllAux_file h perm (n + 1) fs path h1 h2, mkdirAllAux_file h perm m fs path h1 h2]
    cases hp : parentDir path with
    | none =>
      rw [mkdirAllAux_top h perm (n + 1) fs path h1 h2 hp, mkdirAllAux_top h perm m fs path h1 h2 hp]
    | some parent =>
      have hlt := parentDir_length path parent hp
      cases m with
      | zero => omega
      | succ k =>
        have hpar := ih k parent (by omega) (by omega)
        cases hr : (mkdirAllAux h perm n fs parent).2 with
        | some err =>
          have hr2 : (mkdirAllAux h perm k fs parent).2 = some err := by rw [← hpar]; exact hr
          rw [mkdirAllAux_parent_fail h perm n fs path parent h1 h2 hp err hr,
            mkdirAllAux_parent_fail h perm k fs path parent h1 h2 hp err hr2, hpar]
        | none =>
          have hr2 : (mkdirAllAux h perm k fs parent).2 = none := by rw [← hpar]; exact hr
          rw [mkdirAllAux_parent_ok h perm n fs path parent h1 h2 hp hr,
            mkdirAllAux_parent_ok h perm k fs path parent h1 h2 hp hr2, hpar]

theorem osMkdirAll_read (h : Host) (fs : FS) (path : String) (perm : Nat) (k : String) :
    (osMkdirAll h fs path perm).1.read k = fs.read k :=
  mkdirAllAux_read h perm _ fs path k

theorem osMkdirAll_idem (h : Host) (fs : FS) (path : String) (perm : Nat) :
    osMkdirAll h (osMkdirAll h fs path perm).1 path perm = osMkdirAll h fs path perm :=
  mkdirAllAux_idem h perm _ fs path

theorem osMkdirAll_ok_mem (h : Host) (fs : FS) (path : String) (perm : Nat)
    (hok : (osMkdirAll h fs path perm).2 = none) : path ∈ (osMkdirAll h fs path perm).1.dirs :=
  mkdirAllAux_ok_mem h perm _ fs path hok

theorem osMkdirAll_of_mem (h : Host) (fs : FS) (path : String) (perm : Nat)
    (hmem : path ∈ fs.dirs) : osMkdirAll h fs path perm = (fs, none) :=
  mkdirAllAux_dir h perm _ fs path hmem

theorem osMkdirAll_dirs_mono (h : Host) (fs : FS) (path : String) (perm : Nat) (d : String)
    (hd : d ∈ fs.dirs) : d ∈ (osMkdirAll h fs path perm).1.dirs :=
  mkdirAllAux_dirs_mono h perm _ fs path d hd

theorem osMkdirAll_dirs_bound (h : Host) (fs : FS) (path : String) (perm : Nat) (d : String)
    (hd : d ∈ (osMkdirAll h fs path perm).1.dirs) : d ∈ fs.dirs ∨ d ∈ dirChain path := by
  rcases mkdirAllAux_dirs_bound h perm _ fs path d hd with h1 | h1 | h1
  · exact Or.inl h1
  · exact Or.inr (by simp [dirChain, h1])
  · exact Or.inr (by simp [dirChain, h1])

/-- The chain of parents does not depend on the depth bound either. -/
theorem ancestorsAux_fuel (n m : Nat) (path : String)
    (hn : path.length ≤ n) (hm : path.length ≤ m) :
    ancestorsAux n path = ancestorsAux m path := by
  induction n generalizing m path with
  | zero =>
    cases hp : parentDir path with
    | none => cases m <;> simp [ancestorsAux, hp]
    | some parent =>
      have := parentDir_length path parent hp
      omega
  | succ n ih =>
    cases hp : parentDir path with
    | none => cases m <;> simp [ancestorsAux, hp]
    | some parent =>
      have hlt := parentDir_length path parent hp
      cases m with
      | zero => omega
      | succ k =>
        simp only [ancestorsAux, hp]
        rw [ih k parent (by omega) (by omega)]

/-! ## The function, branch by branch -/

theorem run_empty (h : Host) (c : criService) (fs : FS) (r : Option UpdateRuntimeConfigRequest)
    (hcidr : requestPodCidr r = "") :
    UpdateRuntimeConfig h c fs r = ⟨.ok {}, c, fs, [], []⟩ := by
  unfold requestPodCidr at hcidr
  simp [UpdateRuntimeConfig, hcidr]

theorem run_no_template (h : Host) (c : criService) (fs : FS)
    (r : Option UpdateRuntimeConfigRequest) (hcidr : requestPodCidr r ≠ "")
    (htpl : c.config.NetworkPluginConfTemplate = "") :
    UpdateRuntimeConfig h c fs r = ⟨.ok {}, c, fs, [],
      [⟨"No cni config template is specified, wait for other system components to drop the config.", []⟩]⟩ := by
  unfold requestPodCidr at hcidr
  simp [UpdateRuntimeConfig, hcidr, htpl]

theorem run_ready (h : Host) (c : criService) (fs : FS) (r : Option UpdateRuntimeConfigRequest)
    (hcidr : requestPodCidr r ≠ "") (htpl : c.config.NetworkPluginConfTemplate ≠ "")
    (hst : c.netPlugin.Status = none) :
    UpdateRuntimeConfig h c fs r = ⟨.ok {}, c, fs, [.status],
      [⟨"Network plugin is ready, skip generating cni config from template %q",
        [c.config.NetworkPluginConfTemplate]⟩]⟩ := by
  unfold requestPodCidr at hcidr
  simp [UpdateRuntimeConfig, hcidr, htpl, hst]

theorem run_loaded (h : Host) (c : criService) (fs : FS) (r : Option UpdateRuntimeConfigRequest)
    (hcidr : requestPodCidr r ≠ "") (htpl : c.config.NetworkPluginConfTemplate ≠ "")
    (hst : c.netPlugin.Status ≠ none) (hld : c.netPlugin.Load loadOpts = none) :
    UpdateRuntimeConfig h c fs r = ⟨.ok {}, c, fs, [.status, .load loadOpts],
      [⟨"CNI config is successfully loaded, skip generating cni config from template %q",
        [c.config.NetworkPluginConfTemplate]⟩]⟩ := by
  unfold requestPodCidr at hcidr
  unfold loadOpts at hld
  cases hs : c.netPlugin.Status with
  | none => exact absurd hs hst
  | some e => simp [UpdateRuntimeConfig, hcidr, htpl, hs, hld, loadOpts]

theorem run_parse_error (h : Host) (c : criService) (fs : FS)
    (r : Option UpdateRuntimeConfigRequest) (hgen : ReachesGeneration c r) (err : Error)
    (hparse : templateParseFiles h fs c.config.NetworkPluginConfTemplate = .error err) :
    UpdateRuntimeConfig h c fs r =
      ⟨.error (.wrapf err "failed to parse cni config template %q" c.config.NetworkPluginConfTemplate),
        c, fs, probeEvents c,
        [⟨"Generating cni config from template %q", [c.config.NetworkPluginConfTemplate]⟩]⟩ := by
  obtain ⟨hcidr, htpl, hst, hld⟩ := hgen
  unfold requestPodCidr at hcidr
  unfold loadOpts at hld
  cases hs : c.netPlugin.Status with
  | none => exact absurd hs hst
  | some e =>
    cases hl : c.netPlugin.Load [.WithLoNetwork, .WithDefaultConf] with
    | none => exact absurd hl hld
    | some e2 => simp [UpdateRuntimeConfig, hcidr, htpl, hs, hl, hparse, probeEvents, loadOpts]

theorem run_mkdir_error (h : Host) (c : criService) (fs : FS)
    (r : Option UpdateRuntimeConfigRequest) (hgen : ReachesGeneration c r) (t : Template)
    (hparse : templateParseFiles h fs c.config.NetworkPluginConfTemplate = .ok t) (err : Error)
    (hmk : (osMkdirAll h fs c.config.NetworkPluginConfDir 0o755).2 = some err) :
    UpdateRuntimeConfig h c fs r =
      ⟨.error (.wrapf err "failed to create cni config directory: %q" c.config.NetworkPluginConfDir),
        c, (osMkdirAll h fs c.config.NetworkPluginConfDir 0o755).1,
        probeEvents c ++ [.mkdirAll c.config.NetworkPluginConfDir 0o755],
        [⟨"Generating cni config from template %q", [c.config.NetworkPluginConfTemplate]⟩]⟩ := by
  obtain ⟨hcidr, htpl, hst, hld⟩ := hgen
  unfold requestPodCidr at hcidr
  unfold loadOpts at hld
  cases hs : c.netPlugin.Status with
  | none => exact absurd hs hst
  | some e =>
    cases hl : c.netPlugin.Load [.WithLoNetwork, .WithDefaultConf] with
    | none => exact absurd hl hld
    | some e2 =>
      cases hr : osMkdirAll h fs c.config.NetworkPluginConfDir 0o755 with
      | mk fs1 e1 =>
        rw [hr] at hmk
        simp only at hmk
        subst hmk
        simp [UpdateRuntimeConfig, hcidr, htpl, hs, hl, hparse, probeEvents, loadOpts, hr]

theorem run_open_error (h : Host) (c : criService) (fs : FS)
    (r : Option UpdateRuntimeConfigRequest) (hgen : ReachesGeneration c r) (t : Template)
    (hparse : templateParseFiles h fs c.config.NetworkPluginConfTemplate = .ok t)
    (hmk : (osMkdirAll h fs c.config.NetworkPluginConfDir 0o755).2 = none) (err : Error)
    (hop : h.OpenFile (confFilePath h c) [.O_WRONLY, .O_CREATE] 0o644 = some err) :
    UpdateRuntimeConfig h c fs r =
      ⟨.error (.wrapf err "failed to open cni config file %q" (confFilePath h c)),
        c, (osMkdirAll h fs c.config.NetworkPluginConfDir 0o755).1,
        probeEvents c ++ [.mkdirAll c.config.NetworkPluginConfDir 0o755,
          .openFile (confFilePath h c) [.O_WRONLY, .O_CREATE] 0o644],
        [⟨"Generating cni config from template %q", [c.config.NetworkPluginConfTemplate]⟩]⟩ := by
  obtain ⟨hcidr, htpl, hst, hld⟩ := hgen
  unfold requestPodCidr at hcidr
  unfold loadOpts at hld
  unfold confFilePath at hop
  cases hs : c.netPlugin.Status with
  | none => exact absurd hs hst
  | some e =>
    cases hl : c.netPlugin.Load [.WithLoNetwork, .WithDefaultConf] with
    | none => exact absurd hl hld
    | some e2 =>
      cases hr : osMkdirAll h fs c.config.NetworkPluginConfDir 0o755 with
      | mk fs1 e1 =>
        rw [hr] at hmk
        simp only at hmk
        subst hmk
        simp [UpdateRuntimeConfig, hcidr, htpl, hs, hl, hparse, probeEvents, loadOpts, hr,
          osOpenFile, hop, confFilePath]

theorem run_generate (h : Host) (c : criService) (fs : FS)
    (r : Option UpdateRuntimeConfigRequest) (hgen : ReachesGeneration c r) (t : Template)
    (hparse : templateParseFiles h fs c.config.NetworkPluginConfTemplate = .ok t)
    (hmk : (osMkdirAll h fs c.config.NetworkPluginConfDir 0o755).2 = none)
    (hop : h.OpenFile (confFilePath h c) [.O_WRONLY, .O_CREATE] 0o644 = none) :
    UpdateRuntimeConfig h c fs r =
      ⟨renderResult h c (t.Execute ⟨requestPodCidr r⟩).2, c,
        (osMkdirAll h fs c.config.NetworkPluginConfDir 0o755).1.store (h.FileOf (confFilePath h c))
          (writeAt ((fs.read (h.FileOf (confFilePath h c))).getD []) 0
            (t.Execute ⟨requestPodCidr r⟩).1),
        generateEvents h c ⟨requestPodCidr r⟩ (t.Execute ⟨requestPodCidr r⟩).1,
        [⟨"Generating cni config from template %q", [c.config.NetworkPluginConfTemplate]⟩]⟩ := by
  obtain ⟨hcidr, htpl, hst, hld⟩ := hgen
  unfold requestPodCidr at hcidr
  unfold loadOpts at hld
  unfold confFilePath at hop
  have hread := osMkdirAll_read h fs c.config.NetworkPluginConfDir 0o755
    (h.FileOf (h.Join c.config.NetworkPluginConfDir cniConfigFileName))
  cases hs : c.netPlugin.Status with
  | none => exact absurd hs hst
  | some e =>
    cases hl : c.netPlugin.Load [.WithLoNetwork, .WithDefaultConf] with
    | none => exact absurd hl hld
    | some e2 =>
      cases hr : osMkdirAll h fs c.config.NetworkPluginConfDir 0o755 with
      | mk fs1 e1 =>
        rw [hr] at hmk hread
        simp only at hmk hread
        subst hmk
        cases hrd : fs.read (h.FileOf (h.Join c.config.NetworkPluginConfDir cniConfigFileName)) with
        | none =>
          rw [hrd] at hread
          cases hex : (t.Execute ⟨GetPodCidr (GetNetworkConfig (GetRuntimeConfig r))⟩).2 with
          | none =>
            simp [UpdateRuntimeConfig, hcidr, htpl, hs, hl, hparse, probeEvents, loadOpts, hr,
              osOpenFile, hop, confFilePath, hread, hrd, Template.ExecuteTo, File.Write, hex,
              FS.read_store_same, FS.store_store, renderResult, generateEvents, requestPodCidr]
          | some e3 =>
            simp [UpdateRuntimeConfig, hcidr, htpl, hs, hl, hparse, probeEvents, loadOpts, hr,
              osOpenFile, hop, confFilePath, hread, hrd, Template.ExecuteTo, File.Write, hex,
              FS.read_store_same, FS.store_store, renderResult, generateEvents, requestPodCidr]
        | some old =>
          rw [hrd] at hread
          cases hex : (t.Execute ⟨GetPodCidr (GetNetworkConfig (GetRuntimeConfig r))⟩).2 with
          | none =>
            simp [UpdateRuntimeConfig, hcidr, htpl, hs, hl, hparse, probeEvents, loadOpts, hr,
              osOpenFile, hop, confFilePath, hread, hrd, Template.ExecuteTo, File.Write, hex,
              renderResult, generateEvents, requestPodCidr]
          | some e3 =>
            simp [UpdateRuntimeConfig, hcidr, htpl, hs, hl, hparse, probeEvents, loadOpts, hr,
              osOpenFile, hop, confFilePath, hread, hrd, Template.ExecuteTo, File.Write, hex,
              renderResult, generateEvents, requestPodCidr]

theorem run_generate_read (h : Host) (c : criService) (fs : FS)
    (r : Option UpdateRuntimeConfigRequest) (hgen : ReachesGeneration c r) (t : Template)
    (hparse : templateParseFiles h fs c.config.NetworkPluginConfTemplate = .ok t)
    (hmk : (osMkdirAll h fs c.config.NetworkPluginConfDir 0o755).2 = none)
    (hop : h.OpenFile (confFilePath h c) [.O_WRONLY, .O_CREATE] 0o644 = none) :
    (UpdateRuntimeConfig h c fs r).fs.read
        (h.FileOf (h.Join c.config.NetworkPluginConfDir "10-containerd-net.conflist")) =
      some ((t.Execute ⟨requestPodCidr r⟩).1 ++
        ((fs.read (h.FileOf
            (h.Join c.config.NetworkPluginConfDir "10-containerd-net.conflist"))).getD []).drop
          (t.Execute ⟨requestPodCidr r⟩).1.length) := by
  rw [run_generate h c fs r hgen t hparse hmk hop]
  have hrd := FS.read_store_same
    (osMkdirAll h fs c.config.NetworkPluginConfDir 0o755).1 (h.FileOf (confFilePath h c))
    (writeAt ((fs.read (h.FileOf (confFilePath h c))).getD []) 0 (t.Execute ⟨requestPodCidr r⟩).1)
  exact hrd.trans (congrArg some (writeAt_zero _ _))

theorem run_generate_frame (h : Host) (c : criService) (fs : FS)
    (r : Option UpdateRuntimeConfigRequest) (hgen : ReachesGeneration c r) (t : Template)
    (hparse : templateParseFiles h fs c.config.NetworkPluginConfTemplate = .ok t)
    (hmk : (osMkdirAll h fs c.config.NetworkPluginConfDir 0o755).2 = none)
    (hop : h.OpenFile (confFilePath h c) [.O_WRONLY, .O_CREATE] 0o644 = none)
    (k : String)
    (hk : k ≠ h.FileOf (h.Join c.config.NetworkPluginConfDir "10-containerd-net.conflist")) :
    (UpdateRuntimeConfig h c fs r).fs.read k = fs.read k := by
  rw [run_generate h c fs r hgen t hparse hmk hop]
  have hk2 : k ≠ h.FileOf (confFilePath h c) := hk
  exact (FS.read_store_other _ _ _ _ hk2).trans (osMkdirAll_read _ _ _ _ _)

/-- Every run takes one of seven paths: three that skip generation and leave
the filesystem alone, three that fail in a generation step, one that renders. -/
theorem run_cases (h : Host) (c : criService) (fs : FS) (r : Option UpdateRuntimeConfigRequest) :
    (∃ logs, UpdateRuntimeConfig h c fs r = ⟨.ok {}, c, fs, [], logs⟩) ∨
    (∃ logs, UpdateRuntimeConfig h c fs r = ⟨.ok {}, c, fs, [.status], logs⟩) ∨
    (∃ logs, UpdateRuntimeConfig h c fs r = ⟨.ok {}, c, fs, [.status, .load loadOpts], logs⟩) ∨
    (ReachesGeneration c r ∧
      ∃ err, templateParseFiles h fs c.config.NetworkPluginConfTemplate = .error err) ∨
    (ReachesGeneration c r ∧
      ∃ t err, templateParseFiles h fs c.config.NetworkPluginConfTemplate = .ok t ∧
        (osMkdirAll h fs c.config.NetworkPluginConfDir 0o755).2 = some err) ∨
    (ReachesGeneration c r ∧
      ∃ t err, templateParseFiles h fs c.config.NetworkPluginConfTemplate = .ok t ∧
        (osMkdirAll h fs c.config.NetworkPluginConfDir 0o755).2 = none ∧
        h.OpenFile (confFilePath h c) [.O_WRONLY, .O_CREATE] 0o644 = some err) ∨
    (ReachesGeneration c r ∧
      ∃ t, templateParseFiles h fs c.config.NetworkPluginConfTemplate = .ok t ∧
        (osMkdirAll h fs c.config.NetworkPluginConfDir 0o755).2 = none ∧
        h.OpenFile (confFilePath h c) [.O_WRONLY, .O_CREATE] 0o644 = none) := by
  by_cases hcidr : requestPodCidr r = ""
  · exact Or.inl ⟨_, run_empty h c fs r hcidr⟩
  by_cases htpl : c.config.NetworkPluginConfTemplate = ""
  · exact Or.inl ⟨_, run_no_template h c fs r hcidr htpl⟩
  by_cases hst : c.netPlugin.Status = none
  · exact Or.inr (Or.inl ⟨_, run_ready h c fs r hcidr htpl hst⟩)
  by_cases hld : c.netPlugin.Load loadOpts = none
  · exact Or.inr (Or.inr (Or.inl ⟨_, run_loaded h c fs r hcidr htpl hst hld⟩))
  have hgen : ReachesGeneration c r := ⟨hcidr, htpl, hst, hld⟩
  refine Or.inr (Or.inr (Or.inr ?_))
  cases hparse : templateParseFiles h fs c.config.NetworkPluginConfTemplate with
  | error err => exact Or.inl ⟨hgen, err, rfl⟩
  | ok t =>
    refine Or.inr ?_
    cases hmk : (osMkdirAll h fs c.config.NetworkPluginConfDir 0o755).2 with
    | some err => exact Or.inl ⟨hgen, t, err, rfl, rfl⟩
    | none =>
      refine Or.inr ?_
      cases hop : h.OpenFile (confFilePath h c) [.O_WRONLY, .O_CREATE] 0o644 with
      | some err => exact Or.inl ⟨hgen, t, err, rfl, rfl, rfl⟩
      | none => exact Or.inr ⟨hgen, t, rfl, rfl, rfl⟩

/-- A path that does not name the generated file is parsed to the same result
after a call as before it. -/
theorem parse_after_run (h : Host) (c : criService) (fs : FS)
    (r : Option UpdateRuntimeConfigRequest) (name : String)
    (hne : h.FileOf name ≠
      h.FileOf (h.Join c.config.NetworkPluginConfDir "10-containerd-net.conflist")) :
    templateParseFiles h (UpdateRuntimeConfig h c fs r).fs name = templateParseFiles h fs name := by
  have hread : (UpdateRuntimeConfig h c fs r).fs.read (h.FileOf name) = fs.read (h.FileOf name) := by
    rcases run_cases h c fs r with ⟨logs, e⟩ | ⟨logs, e⟩ | ⟨logs, e⟩ | ⟨hgen, err, hparse⟩ |
      ⟨hgen, t, err, hparse, hmk⟩ | ⟨hgen, t, err, hparse, hmk, hop⟩ | ⟨hgen, t, hparse, hmk, hop⟩
    · rw [e]
    · rw [e]
    · rw [e]
    · rw [run_parse_error h c fs r hgen err hparse]
    · rw [run_mkdir_error h c fs r hgen t hparse err hmk]
      exact osMkdirAll_read _ _ _ _ _
    · rw [run_open_error h c fs r hgen t hparse hmk err hop]
      exact osMkdirAll_read _ _ _ _ _
    · exact run_generate_frame h c fs r hgen t hparse hmk hop _ hne
  unfold templateParseFiles
  rw [hread]

/-! ## Counting occurrences -/

theorem utf8EncodeChar_ne_nil (ch : Char) : String.utf8EncodeChar ch ≠ [] := by
  unfold String.utf8EncodeChar
  simp only []
  split
  · simp
  · split
    · simp
    · split <;> simp

theorem utf8_ne_nil (s : String) (hs : s ≠ "") : utf8 s ≠ [] := by
  unfold utf8
  cases hd : s.data with
  | nil =>
    exfalso
    apply hs
    cases s
    simp only at hd
    subst hd
    rfl
  | cons ch rest =>
    simp only [List.flatMap_cons]
    intro hnil
    exact utf8EncodeChar_ne_nil ch (List.append_eq_nil.mp hnil).1

theorem countOcc_cons (pat : List UInt8) (x : UInt8) (xs : List UInt8) :
    countOcc pat (x :: xs) = (if pat.isPrefixOf (x :: xs) then 1 else 0) + countOcc pat xs := rfl

theorem isPrefixOf_of_length_lt (pat l : List UInt8) (hlen : l.length < pat.length) :
    pat.isPrefixOf l = false := by
  cases hb : pat.isPrefixOf l with
  | false => rfl
  | true =>
    have hp := (List.isPrefixOf_iff_prefix.mp hb).length_le
    omega

theorem countOcc_short (pat l : List UInt8) (hlen : l.length < pat.length) :
    countOcc pat l = 0 := by
  induction l with
  | nil =>
    have hne : pat ≠ [] := by
      intro hnil
      rw [hnil] at hlen
      simp at hlen
    simp [countOcc, hne]
  | cons x xs ih =>
    have hxs : xs.length < pat.length := by
      simp only [List.length_cons] at hlen
      omega
    simp [countOcc, isPrefixOf_of_length_lt pat (x :: xs) hlen, ih hxs]

theorem isPrefixOf_eq_of_take_eq (pat l1 l2 : List UInt8)
    (htake : l1.take pat.length = l2.take pat.length) :
    pat.isPrefixOf l1 = pat.isPrefixOf l2 := by
  have key : ∀ l : List UInt8, pat.isPrefixOf l = true ↔ pat = l.take pat.length := fun l =>
    List.isPrefixOf_iff_prefix.trans List.prefix_iff_eq_take
  cases h1 : pat.isPrefixOf l1 with
  | true =>
    have := (key l1).mp h1
    rw [htake] at this
    exact ((key l2).mpr this).symm
  | false =>
    cases h2 : pat.isPrefixOf l2 with
    | false => rfl
    | true =>
      have := (key l2).mp h2
      rw [← htake] at this
      rw [(key l1).mpr this] at h1
      exact absurd h1 (by simp)

theorem take_cons_append_take (pat : List UInt8) (x : UInt8) (a s : List UInt8) :
    (x :: (a ++ s)).take pat.length = (x :: (a ++ s.take (pat.length - 1))).take pat.length := by
  cases hn : pat.length with
  | zero => simp
  | succ k =>
    simp only [List.take_succ_cons, Nat.add_sub_cancel]
    congr 1
    rw [List.take_append_eq_append_take, List.take_append_eq_append_take, List.take_take]
    congr 2
    omega

/-- Occurrences in `a ++ s` are those that start inside `a`, which need no more
than the first `length pat - 1` bytes of `s`, and those inside `s`. -/
theorem countOcc_append (pat a s : List UInt8) (hne : pat ≠ []) :
    countOcc pat (a ++ s) = countOcc pat (a ++ s.take (pat.length - 1)) + countOcc pat s := by
  have hpos : 0 < pat.length := List.length_pos.mpr hne
  induction a with
  | nil =>
    have hshort : countOcc pat (s.take (pat.length - 1)) = 0 := by
      apply countOcc_short
      have := List.length_take_le (pat.length - 1) s
      omega
    simp [hshort]
  | cons x a ih =>
    have hpre := isPrefixOf_eq_of_take_eq pat _ _ (take_cons_append_take pat x a s)
    rw [List.cons_append, List.cons_append, countOcc_cons, countOcc_cons, hpre, ih]
    omega

/-- The exact number of occurrences of a non-empty `pat` in `before ++ pat ++ rest`:
the one at the seam, plus those that the bytes before create with the start of
`pat`, plus those that the end of `pat` creates with the bytes after. -/
theorem countOcc_seam (pat before rest : List UInt8) (hne : pat ≠ []) :
    countOcc pat (before ++ pat ++ rest) =
      countOcc pat (before ++ pat.dropLast) + 1 + countOcc pat (pat.tail ++ rest) := by
  have hpos : 0 < pat.length := List.length_pos.mpr hne
  rw [List.append_assoc, countOcc_append pat before (pat ++ rest) hne]
  have htake : (pat ++ rest).take (pat.length - 1) = pat.dropLast := by
    rw [List.take_append_of_le_length (by omega), List.dropLast_eq_take]
  rw [htake]
  cases pat with
  | nil => exact absurd rfl hne
  | cons x pt =>
    have hself : (x :: pt).isPrefixOf (x :: (pt ++ rest)) = true := by
      rw [List.isPrefixOf_iff_prefix]
      exact List.prefix_append (x :: pt) rest
    rw [List.cons_append, countOcc_cons, hself, List.tail_cons]
    simp only [if_true]
    omega

/-! ## The skip conditions -/

/-- C1: whenever the status probe returns no error, the call returns the empty
success response, the only collaborator call it can have made is the status
probe itself (so `Load` is never called and nothing reads or changes the
filesystem: no parse, no directory creation, no file), and the filesystem is
the one before the call, whatever subnet and template are configured.  With a
non-empty subnet and a configured template the probe is indeed queried, once. -/
theorem status_ok_skips_generation (h : Host) (c : criService) (fs : FS)
    (r : Option UpdateRuntimeConfigRequest) (hst : c.netPlugin.Status = none) :
    (UpdateRuntimeConfig h c fs r).result = .ok {} ∧
    (∀ e ∈ (UpdateRuntimeConfig h c fs r).events, e = Event.status) ∧
    (∀ opts, Event.load opts ∉ (UpdateRuntimeConfig h c fs r).events) ∧
    (∀ e ∈ (UpdateRuntimeConfig h c fs r).events, e.isFsAccess = false) ∧
    (UpdateRuntimeConfig h c fs r).fs = fs ∧
    (requestPodCidr r ≠ "" → c.config.NetworkPluginConfTemplate ≠ "" →
      (UpdateRuntimeConfig h c fs r).events = [Event.status]) := by
  by_cases hcidr : requestPodCidr r = ""
  · rw [run_empty h c fs r hcidr]
    simp [hcidr]
  · by_cases htpl : c.config.NetworkPluginConfTemplate = ""
    · rw [run_no_template h c fs r hcidr htpl]
      simp [htpl]
    · rw [run_ready h c fs r hcidr htpl hst]
      simp [Event.isFsAccess]

/-- Scenario C: subnet 10.244.1.0/24, the plugin is ready. -/
theorem status_ok_skips_generation_witness :
    cniReady.Status = none ∧
    (UpdateRuntimeConfig exHost ⟨exConfig, cniReady⟩ exFS exRequest).result = .ok {} ∧
    (UpdateRuntimeConfig exHost ⟨exConfig, cniReady⟩ exFS exRequest).fs = exFS ∧
    (UpdateRuntimeConfig exHost ⟨exConfig, cniReady⟩ exFS exRequest).events = [Event.status] :=
  ⟨rfl,
    (status_ok_skips_generation exHost ⟨exConfig, cniReady⟩ exFS exRequest rfl).1,
    (status_ok_skips_generation exHost ⟨exConfig, cniReady⟩ exFS exRequest rfl).2.2.2.2.1,
    (status_ok_skips_generation exHost ⟨exConfig, cniReady⟩ exFS exRequest rfl).2.2.2.2.2
      (by decide) (by decide)⟩

/-- C3: a request whose pod CIDR is the empty string (a nil request or nil
sub-message included) gets the empty success response; no collaborator is
called, neither the status probe nor the loader nor anything on the
filesystem, and service and filesystem are the ones before the call. -/
theorem empty_subnet_is_noop (h : Host) (c : criService) (fs : FS)
    (r : Option UpdateRuntimeConfigRequest) (hcidr : requestPodCidr r = "") :
    (UpdateRuntimeConfig h c fs r).result = .ok {} ∧
    (UpdateRuntimeConfig h c fs r).events = [] ∧
    (UpdateRuntimeConfig h c fs r).fs = fs ∧
    (UpdateRuntimeConfig h c fs r).c = c := by
  rw [run_empty h c fs r hcidr]
  simp

/-- Scenario B: the subnet is empty, on a node where generation would otherwise run. -/
theorem empty_subnet_is_noop_witness :
    requestPodCidr (mkRequest "") = "" ∧
    (UpdateRuntimeConfig exHost ⟨exConfig, cniDown⟩ exFS (mkRequest "")).result = .ok {} ∧
    (UpdateRuntimeConfig exHost ⟨exConfig, cniDown⟩ exFS (mkRequest "")).events = [] ∧
    (UpdateRuntimeConfig exHost ⟨exConfig, cniDown⟩ exFS (mkRequest "")).fs = exFS ∧
    (UpdateRuntimeConfig exHost ⟨exConfig, cniDown⟩ exFS (mkRequest "")).c = ⟨exConfig, cniDown⟩ :=
  ⟨rfl, empty_subnet_is_noop exHost ⟨exConfig, cniDown⟩ exFS (mkRequest "") rfl⟩

/-- C4: with a non-empty subnet and no template configured the call returns
the empty success response, calls neither the status probe nor the loader nor
anything on the filesystem, and leaves the filesystem as it was; this holds for
every plugin behaviour, every host and every output directory. -/
theorem no_template_is_noop (h : Host) (c : criService) (fs : FS)
    (r : Option UpdateRuntimeConfigRequest) (hcidr : requestPodCidr r ≠ "")
    (htpl : c.config.NetworkPluginConfTemplate = "") :
    (UpdateRuntimeConfig h c fs r).result = .ok {} ∧
    (UpdateRuntimeConfig h c fs r).events = [] ∧
    (UpdateRuntimeConfig h c fs r).fs = fs := by
  rw [run_no_template h c fs r hcidr htpl]
  simp

/-- No template on the example node, plugin down: nothing is generated. -/
theorem no_template_is_noop_witness :
    requestPodCidr exRequest ≠ "" ∧
    (UpdateRuntimeConfig exHost ⟨⟨"", "/etc/cni/net.d"⟩, cniDown⟩ exFS exRequest).result = .ok {} ∧
    (UpdateRuntimeConfig exHost ⟨⟨"", "/etc/cni/net.d"⟩, cniDown⟩ exFS exRequest).events = [] ∧
    (UpdateRuntimeConfig exHost ⟨⟨"", "/etc/cni/net.d"⟩, cniDown⟩ exFS exRequest).fs = exFS :=
  ⟨by decide,
    no_template_is_noop exHost ⟨⟨"", "/etc/cni/net.d"⟩, cniDown⟩ exFS exRequest (by decide) rfl⟩

/-- C5: with a non-empty subnet and a configured template, a failing status
probe and a `Load(WithLoNetwork, WithDefaultConf)` that returns no error, the call
returns the empty success response; the calls made are the probe and the
load and nothing else (the template is not parsed, the directory not created,
no file opened), and the filesystem is the one before the call. -/
theorem loadable_config_skips_generation (h : Host) (c : criService) (fs : FS)
    (r : Option UpdateRuntimeConfigRequest) (hcidr : requestPodCidr r ≠ "")
    (htpl : c.config.NetworkPluginConfTemplate ≠ "") (hst : c.netPlugin.Status ≠ none)
    (hld : c.netPlugin.Load [.WithLoNetwork, .WithDefaultConf] = none) :
    (UpdateRuntimeConfig h c fs r).result = .ok {} ∧
    (UpdateRuntimeConfig h c fs r).events =
      [Event.status, Event.load [.WithLoNetwork, .WithDefaultConf]] ∧
    (UpdateRuntimeConfig h c fs r).fs = fs := by
  rw [run_loaded h c fs r hcidr htpl hst hld]
  simp [loadOpts]

/-- The plugin is down but an existing configuration loads. -/
theorem loadable_config_skips_generation_witness :
    (requestPodCidr exRequest ≠ "" ∧ exConfig.NetworkPluginConfTemplate ≠ "" ∧
      cniLoads.Status ≠ none ∧ cniLoads.Load [.WithLoNetwork, .WithDefaultConf] = none) ∧
    (UpdateRuntimeConfig exHost ⟨exConfig, cniLoads⟩ exFS exRequest).result = .ok {} ∧
    (UpdateRuntimeConfig exHost ⟨exConfig, cniLoads⟩ exFS exRequest).events =
      [Event.status, Event.load [.WithLoNetwork, .WithDefaultConf]] ∧
    (UpdateRuntimeConfig exHost ⟨exConfig, cniLoads⟩ exFS exRequest).fs = exFS :=
  ⟨⟨by decide, by decide, by decide, rfl⟩,
    loadable_config_skips_generation exHost ⟨exConfig, cniLoads⟩ exFS exRequest
      (by decide) (by decide) (by decide) rfl⟩

/-! ## Failures of the generation steps -/

/-- C6: when a call reaches generation and parsing the template fails, the
call returns the error `Wrapf(cause, "failed to parse cni config template %q",
template path)` and no response; the calls made end with the parse (no
directory is created, no file opened or written) and the filesystem is the one
before the call. -/
theorem parse_failure_leaves_fs_untouched (h : Host) (c : criService) (fs : FS)
    (r : Option UpdateRuntimeConfigRequest) (hgen : ReachesGeneration c r) (err : Error)
    (hparse : templateParseFiles h fs c.config.NetworkPluginConfTemplate = .error err) :
    (UpdateRuntimeConfig h c fs r).result =
      .error (.wrapf err "failed to parse cni config template %q"
        c.config.NetworkPluginConfTemplate) ∧
    (UpdateRuntimeConfig h c fs r).events =
      [Event.status, Event.load [.WithLoNetwork, .WithDefaultConf],
        Event.parseFiles c.config.NetworkPluginConfTemplate] ∧
    (∀ e ∈ (UpdateRuntimeConfig h c fs r).events, e.isMkdir = false ∧ e.isFileWrite = false) ∧
    (UpdateRuntimeConfig h c fs r).fs = fs := by
  rw [run_parse_error h c fs r hgen err hparse]
  simp [probeEvents, loadOpts, Event.isMkdir, Event.isFileWrite]

/-- The configured template path does not exist on the example node. -/
theorem parse_failure_leaves_fs_untouched_witness :
    ReachesGeneration ⟨⟨"/etc/cni/missing", "/etc/cni/net.d"⟩, cniDown⟩ exRequest ∧
    templateParseFiles exHost exFS "/etc/cni/missing" =
      .error (.cause "open /etc/cni/missing: no such file or directory") ∧
    (UpdateRuntimeConfig exHost ⟨⟨"/etc/cni/missing", "/etc/cni/net.d"⟩, cniDown⟩ exFS
      exRequest).result =
      .error (.wrapf (.cause "open /etc/cni/missing: no such file or directory")
        "failed to parse cni config template %q" "/etc/cni/missing") ∧
    (UpdateRuntimeConfig exHost ⟨⟨"/etc/cni/missing", "/etc/cni/net.d"⟩, cniDown⟩ exFS
      exRequest).fs = exFS :=
  ⟨by decide, rfl,
    (parse_failure_leaves_fs_untouched exHost ⟨⟨"/etc/cni/missing", "/etc/cni/net.d"⟩, cniDown⟩
      exFS exRequest (by decide) (.cause "open /etc/cni/missing: no such file or directory")
      rfl).1,
    (parse_failure_leaves_fs_untouched exHost ⟨⟨"/etc/cni/missing", "/etc/cni/net.d"⟩, cniDown⟩
      exFS exRequest (by decide) (.cause "open /etc/cni/missing: no such file or directory")
      rfl).2.2.2⟩

/-- C2, as the counterexample forces it: with a non-empty subnet, a configured
template, a failing status probe and a failing loader, when parse, directory
creation, open and rendering all succeed, the call returns the empty success
response.  The only file it opens and writes is the one named by
`Join(NetworkPluginConfDir, "10-containerd-net.conflist")`, a path computed from the
configuration alone; what it writes there is the output of the template
executed on `PodCIDR := subnet`, every other file keeps its content, and the
file starts with those bytes.  For a template made of text, one `PodCIDR`
placeholder and text, the bytes written are the first text, the bytes of the
subnet as it came in the request, and the second text: the subnet is
substituted once.  The number of times the subnet occurs in the file is one
plus the occurrences that the text before creates with the start of the subnet
and those that the end of the subnet creates with the text after and the stale
bytes of a longer previous file; it is exactly one if and only if there are
none of these. -/
theorem generation_writes_rendered_template (h : Host) (c : criService) (fs : FS)
    (r : Option UpdateRuntimeConfigRequest) (hgen : ReachesGeneration c r) (t : Template)
    (hparse : templateParseFiles h fs c.config.NetworkPluginConfTemplate = .ok t)
    (hmk : (osMkdirAll h fs c.config.NetworkPluginConfDir 0o755).2 = none)
    (hop : h.OpenFile (h.Join c.config.NetworkPluginConfDir "10-containerd-net.conflist")
      [.O_WRONLY, .O_CREATE] 0o644 = none)
    (hex : (t.Execute ⟨requestPodCidr r⟩).2 = none) :
    (UpdateRuntimeConfig h c fs r).result = .ok {} ∧
    (UpdateRuntimeConfig h c fs r).events.filter Event.isFileWrite =
      [Event.openFile (h.Join c.config.NetworkPluginConfDir "10-containerd-net.conflist")
          [.O_WRONLY, .O_CREATE] 0o644,
        Event.execute (h.Join c.config.NetworkPluginConfDir "10-containerd-net.conflist")
          ⟨requestPodCidr r⟩ (t.Execute ⟨requestPodCidr r⟩).1] ∧
    (∀ k, k ≠ h.FileOf (h.Join c.config.NetworkPluginConfDir "10-containerd-net.conflist") →
      (UpdateRuntimeConfig h c fs r).fs.read k = fs.read k) ∧
    (UpdateRuntimeConfig h c fs r).fs.read
        (h.FileOf (h.Join c.config.NetworkPluginConfDir "10-containerd-net.conflist")) =
      some ((t.Execute ⟨requestPodCidr r⟩).1 ++
        staleTail (fs.read
          (h.FileOf (h.Join c.config.NetworkPluginConfDir "10-containerd-net.conflist")))
          (t.Execute ⟨requestPodCidr r⟩).1.length) ∧
    (fs.read (h.FileOf (h.Join c.config.NetworkPluginConfDir "10-containerd-net.conflist")) =
        none →
      (UpdateRuntimeConfig h c fs r).fs.read
        (h.FileOf (h.Join c.config.NetworkPluginConfDir "10-containerd-net.conflist")) =
      some (t.Execute ⟨requestPodCidr r⟩).1) ∧
    (∀ before after, t.Execute = execNodes [.text before, .podCIDR, .text after] →
      (t.Execute ⟨requestPodCidr r⟩).1 =
        before ++ utf8 (requestPodCidr r) ++ after ∧
      (UpdateRuntimeConfig h c fs r).fs.read
          (h.FileOf (h.Join c.config.NetworkPluginConfDir "10-containerd-net.conflist")) =
        some (before ++ utf8 (requestPodCidr r) ++ (after ++
          staleTail (fs.read
            (h.FileOf (h.Join c.config.NetworkPluginConfDir "10-containerd-net.conflist")))
            (t.Execute ⟨requestPodCidr r⟩).1.length)) ∧
      countOcc (utf8 (requestPodCidr r))
          (before ++ utf8 (requestPodCidr r) ++ (after ++
            staleTail (fs.read
              (h.FileOf (h.Join c.config.NetworkPluginConfDir "10-containerd-net.conflist")))
              (t.Execute ⟨requestPodCidr r⟩).1.length)) =
        countOcc (utf8 (requestPodCidr r)) (before ++ (utf8 (requestPodCidr r)).dropLast) +
          1 +
          countOcc (utf8 (requestPodCidr r)) ((utf8 (requestPodCidr r)).tail ++ (after ++
            staleTail (fs.read
              (h.FileOf (h.Join c.config.NetworkPluginConfDir "10-containerd-net.conflist")))
              (t.Execute ⟨requestPodCidr r⟩).1.length)) ∧
      (countOcc (utf8 (requestPodCidr r))
          (before ++ utf8 (requestPodCidr r) ++ (after ++
            staleTail (fs.read
              (h.FileOf (h.Join c.config.NetworkPluginConfDir "10-containerd-net.conflist")))
              (t.Execute ⟨requestPodCidr r⟩).1.length)) = 1 ↔
        countOcc (utf8 (requestPodCidr r))
            (before ++ (utf8 (requestPodCidr r)).dropLast) = 0 ∧
          countOcc (utf8 (requestPodCidr r)) ((utf8 (requestPodCidr r)).tail ++ (after ++
            staleTail (fs.read
              (h.FileOf (h.Join c.config.NetworkPluginConfDir "10-containerd-net.conflist")))
              (t.Execute ⟨requestPodCidr r⟩).1.length)) = 0)) := by
  have hread := run_generate_read h c fs r hgen t hparse hmk hop
  refine ⟨?_, ?_, run_generate_frame h c fs r hgen t hparse hmk hop, hread, ?_, ?_⟩
  · rw [run_generate h c fs r hgen t hparse hmk hop]
    simp [renderResult, hex]
  · rw [run_generate h c fs r hgen t hparse hmk hop]
    simp [generateEvents, probeEvents, Event.isFileWrite, confFilePath, cniConfigFileName]
  · intro hnone
    rw [hread, hnone]
    simp
  · intro before after hnodes
    have hout : (t.Execute ⟨requestPodCidr r⟩).1 =
        before ++ utf8 (requestPodCidr r) ++ after := by
      rw [hnodes]
      simp [execNodes]
    have hne : utf8 (requestPodCidr r) ≠ [] := utf8_ne_nil _ hgen.1
    have hcount := countOcc_seam (utf8 (requestPodCidr r)) (before)
      (after ++ staleTail (fs.read
        (h.FileOf (h.Join c.config.NetworkPluginConfDir "10-containerd-net.conflist")))
        (t.Execute ⟨requestPodCidr r⟩).1.length) hne
    refine ⟨hout, ?_, hcount, ?_⟩
    · rw [hread]
      unfold staleTail
      rw [hout, List.append_assoc (before ++ utf8 (requestPodCidr r))]
    · rw [hcount]
      omega

/-- Scenario A: subnet 10.244.1.0/24, template configured, probe and loader
fail.  The file is created and holds the subnet exactly once. -/
theorem generation_writes_rendered_template_witness :
    ReachesGeneration ⟨exConfig, cniDown⟩ exRequest ∧
    (UpdateRuntimeConfig exHost ⟨exConfig, cniDown⟩ exFS exRequest).result = .ok {} ∧
    (UpdateRuntimeConfig exHost ⟨exConfig, cniDown⟩ exFS exRequest).fs.read
      "/etc/cni/net.d/10-containerd-net.conflist" = some (utf8 "subnet=10.244.1.0/24;") ∧
    countOcc (utf8 "10.244.1.0/24") (utf8 "subnet=10.244.1.0/24;") = 1 :=
  ⟨by decide,
    (generation_writes_rendered_template exHost ⟨exConfig, cniDown⟩ exFS exRequest (by decide)
      exTemplate rfl rfl rfl rfl).1,
    (generation_writes_rendered_template exHost ⟨exConfig, cniDown⟩ exFS exRequest (by decide)
      exTemplate rfl rfl rfl rfl).2.2.2.2.1 (by decide),
    ((generation_writes_rendered_template exHost ⟨exConfig, cniDown⟩ exFS exRequest (by decide)
      exTemplate rfl rfl rfl rfl).2.2.2.2.2 (utf8 "subnet=") (utf8 ";") rfl).2.2.2.mpr
      ⟨by decide, by decide⟩⟩

/-- C2 as stated fails: a template with a single placeholder does not always
yield a content that holds the subnet exactly once.  When the text before the
placeholder holds the subnet itself, or when a longer previous file holds it
beyond the new bytes, the file holds the subnet twice after a successful
generating call. -/
theorem subnet_written_twice :
    ReachesGeneration ⟨exConfig, cniDown⟩ exRequest ∧
    templateParseFiles exHost literalFS exConfig.NetworkPluginConfTemplate =
      .ok (Template.ofNodes [.text (utf8 "10.244.1.0/24 subnet="), .podCIDR]) ∧
    templateParseFiles exHost staleTwiceFS exConfig.NetworkPluginConfTemplate =
      .ok (Template.ofNodes [.text (utf8 "subnet="), .podCIDR, .text (utf8 ";")]) ∧
    (UpdateRuntimeConfig exHost ⟨exConfig, cniDown⟩ literalFS exRequest).result = .ok {} ∧
    (UpdateRuntimeConfig exHost ⟨exConfig, cniDown⟩ literalFS exRequest).events.filter
        Event.isFileWrite =
      [Event.openFile "/etc/cni/net.d/10-containerd-net.conflist" [.O_WRONLY, .O_CREATE] 0o644,
        Event.execute "/etc/cni/net.d/10-containerd-net.conflist" ⟨"10.244.1.0/24"⟩
          (utf8 "10.244.1.0/24 subnet=10.244.1.0/24")] ∧
    (UpdateRuntimeConfig exHost ⟨exConfig, cniDown⟩ literalFS exRequest).fs.read
        "/etc/cni/net.d/10-containerd-net.conflist" =
      some (utf8 "10.244.1.0/24 subnet=10.244.1.0/24") ∧
    countOcc (utf8 "10.244.1.0/24") (utf8 "10.244.1.0/24 subnet=10.244.1.0/24") = 2 ∧
    (UpdateRuntimeConfig exHost ⟨exConfig, cniDown⟩ staleTwiceFS exRequest).result = .ok {} ∧
    (UpdateRuntimeConfig exHost ⟨exConfig, cniDown⟩ staleTwiceFS exRequest).fs.read
        "/etc/cni/net.d/10-containerd-net.conflist" =
      some (utf8 "subnet=10.244.1.0/24;route=10.244.1.0/24;") ∧
    countOcc (utf8 "10.244.1.0/24") (utf8 "subnet=10.244.1.0/24;route=10.244.1.0/24;") = 2 := by
  refine ⟨by decide, rfl, rfl, rfl, by decide, by decide, by decide, rfl, by decide, by decide⟩

/-- C8: the output file is opened with `O_WRONLY|O_CREATE` and no other flag (no
`O_TRUNC`, no `O_APPEND`) and written from offset 0.  After a successful generating
call over a file that held `old`, the file holds the rendered bytes followed by
`old` from position `length new` on: exactly the rendered bytes when `old` is not
longer, and a non-empty rest of `old` behind them when it is; over a missing
file it holds exactly the rendered bytes. -/
theorem write_without_truncation (h : Host) (c : criService) (fs : FS)
    (r : Option UpdateRuntimeConfigRequest) (hgen : ReachesGeneration c r) (t : Template)
    (hparse : templateParseFiles h fs c.config.NetworkPluginConfTemplate = .ok t)
    (hmk : (osMkdirAll h fs c.config.NetworkPluginConfDir 0o755).2 = none)
    (hop : h.OpenFile (h.Join c.config.NetworkPluginConfDir "10-containerd-net.conflist")
      [.O_WRONLY, .O_CREATE] 0o644 = none)
    (hex : (t.Execute ⟨requestPodCidr r⟩).2 = none) :
    (UpdateRuntimeConfig h c fs r).result = .ok {} ∧
    (∀ name flags perm, Event.openFile name flags perm ∈ (UpdateRuntimeConfig h c fs r).events →
      flags = [.O_WRONLY, .O_CREATE]) ∧
    (∀ old,
      fs.read (h.FileOf (h.Join c.config.NetworkPluginConfDir "10-containerd-net.conflist")) =
        some old →
      (UpdateRuntimeConfig h c fs r).fs.read
          (h.FileOf (h.Join c.config.NetworkPluginConfDir "10-containerd-net.conflist")) =
        some ((t.Execute ⟨requestPodCidr r⟩).1 ++
          old.drop (t.Execute ⟨requestPodCidr r⟩).1.length) ∧
      (old.length ≤ (t.Execute ⟨requestPodCidr r⟩).1.length →
        (UpdateRuntimeConfig h c fs r).fs.read
            (h.FileOf (h.Join c.config.NetworkPluginConfDir "10-containerd-net.conflist")) =
          some (t.Execute ⟨requestPodCidr r⟩).1) ∧
      ((t.Execute ⟨requestPodCidr r⟩).1.length < old.length →
        old.drop (t.Execute ⟨requestPodCidr r⟩).1.length ≠ [] ∧
        (UpdateRuntimeConfig h c fs r).fs.read
            (h.FileOf (h.Join c.config.NetworkPluginConfDir "10-containerd-net.conflist")) ≠
          some (t.Execute ⟨requestPodCidr r⟩).1)) ∧
    (fs.read (h.FileOf (h.Join c.config.NetworkPluginConfDir "10-containerd-net.conflist")) =
        none →
      (UpdateRuntimeConfig h c fs r).fs.read
          (h.FileOf (h.Join c.config.NetworkPluginConfDir "10-containerd-net.conflist")) =
        some (t.Execute ⟨requestPodCidr r⟩).1) := by
  have hread := run_generate_read h c fs r hgen t hparse hmk hop
  refine ⟨?_, ?_, ?_, ?_⟩
  · rw [run_generate h c fs r hgen t hparse hmk hop]
    simp [renderResult, hex]
  · intro name flags perm hmem
    rw [run_generate h c fs r hgen t hparse hmk hop] at hmem
    simp [generateEvents, probeEvents] at hmem
    exact hmem.2.1
  · intro old hold
    rw [hold] at hread
    simp only [Option.getD_some] at hread
    refine ⟨hread, ?_, ?_⟩
    · intro hle
      rw [hread, List.drop_eq_nil_of_le hle, List.append_nil]
    · intro hlt
      have hdrop : old.drop (t.Execute ⟨requestPodCidr r⟩).1.length ≠ [] := by
        intro hnil
        have hle := List.drop_eq_nil_iff.mp hnil
        omega
      refine ⟨hdrop, ?_⟩
      rw [hread]
      intro heq
      simp only [Option.some.injEq, List.append_right_eq_self] at heq
      exact hdrop heq
  · intro hnone
    rw [hread, hnone]
    simp

/-- A run for 10.244.1.0/24 over the file left by a run for 10.244.100.0/24:
the last two bytes of the old content stay behind the new content. -/
theorem write_without_truncation_witness :
    ReachesGeneration ⟨exConfig, cniDown⟩ exRequest ∧
    staleFS.read "/etc/cni/net.d/10-containerd-net.conflist" =
      some (utf8 "subnet=10.244.100.0/24;") ∧
    (exTemplate.Execute ⟨"10.244.1.0/24"⟩).1 = utf8 "subnet=10.244.1.0/24;" ∧
    (UpdateRuntimeConfig exHost ⟨exConfig, cniDown⟩ staleFS exRequest).fs.read
        "/etc/cni/net.d/10-containerd-net.conflist" =
      some (utf8 "subnet=10.244.1.0/24;" ++ utf8 "4;") :=
  ⟨by decide, by decide, by decide,
    ((write_without_truncation exHost ⟨exConfig, cniDown⟩ staleFS exRequest (by decide)
      exTemplate rfl rfl rfl rfl).2.2.1 (utf8 "subnet=10.244.100.0/24;") (by decide)).1⟩

/-! ## Frame and idempotence -/

/-- C9, as the counterexample forces it: in every call, successful or not, the
files opened and written are at most the one file named by
`Join(NetworkPluginConfDir, "10-containerd-net.conflist")` (one open, one render) and
every other file keeps its content; at most one directory creation call is
made, `MkdirAll` of `NetworkPluginConfDir`; the directories there were stay, and
those it adds are `NetworkPluginConfDir` and parents of it, no other; the
service with its configuration is the one before the call; and the template
resource keeps its content whenever its path does not name the generated
file, neither as the same path nor as another path to the same file. -/
theorem only_conf_file_and_dir_change (h : Host) (c : criService) (fs : FS)
    (r : Option UpdateRuntimeConfigRequest) :
    (∀ k, k ≠ h.FileOf (h.Join c.config.NetworkPluginConfDir "10-containerd-net.conflist") →
      (UpdateRuntimeConfig h c fs r).fs.read k = fs.read k) ∧
    ((UpdateRuntimeConfig h c fs r).events.filter Event.isFileWrite = [] ∨
      (UpdateRuntimeConfig h c fs r).events.filter Event.isFileWrite =
        [Event.openFile (h.Join c.config.NetworkPluginConfDir "10-containerd-net.conflist")
          [.O_WRONLY, .O_CREATE] 0o644] ∨
      ∃ written, (UpdateRuntimeConfig h c fs r).events.filter Event.isFileWrite =
        [Event.openFile (h.Join c.config.NetworkPluginConfDir "10-containerd-net.conflist")
          [.O_WRONLY, .O_CREATE] 0o644,
         Event.execute (h.Join c.config.NetworkPluginConfDir "10-containerd-net.conflist")
          ⟨requestPodCidr r⟩ written]) ∧
    ((UpdateRuntimeConfig h c fs r).events.filter Event.isMkdir = [] ∨
      (UpdateRuntimeConfig h c fs r).events.filter Event.isMkdir =
        [Event.mkdirAll c.config.NetworkPluginConfDir 0o755]) ∧
    ((UpdateRuntimeConfig h c fs r).fs.dirs = fs.dirs ∨
      (UpdateRuntimeConfig h c fs r).fs.dirs =
        (osMkdirAll h fs c.config.NetworkPluginConfDir 0o755).1.dirs) ∧
    (∀ d ∈ fs.dirs, d ∈ (UpdateRuntimeConfig h c fs r).fs.dirs) ∧
    (∀ d ∈ (UpdateRuntimeConfig h c fs r).fs.dirs,
      d ∈ fs.dirs ∨ d ∈ dirChain c.config.NetworkPluginConfDir) ∧
    (UpdateRuntimeConfig h c fs r).c = c ∧
    (h.FileOf c.config.NetworkPluginConfTemplate ≠
        h.FileOf (h.Join c.config.NetworkPluginConfDir "10-containerd-net.conflist") →
      (UpdateRuntimeConfig h c fs r).fs.read (h.FileOf c.config.NetworkPluginConfTemplate) =
        fs.read (h.FileOf c.config.NetworkPluginConfTemplate)) := by
  have key : (∀ k, k ≠ h.FileOf
          (h.Join c.config.NetworkPluginConfDir "10-containerd-net.conflist") →
        (UpdateRuntimeConfig h c fs r).fs.read k = fs.read k) ∧
      ((UpdateRuntimeConfig h c fs r).events.filter Event.isFileWrite = [] ∨
        (UpdateRuntimeConfig h c fs r).events.filter Event.isFileWrite =
          [Event.openFile (h.Join c.config.NetworkPluginConfDir "10-containerd-net.conflist")
            [.O_WRONLY, .O_CREATE] 0o644] ∨
        ∃ written, (UpdateRuntimeConfig h c fs r).events.filter Event.isFileWrite =
          [Event.openFile (h.Join c.config.NetworkPluginConfDir "10-containerd-net.conflist")
            [.O_WRONLY, .O_CREATE] 0o644,
           Event.execute (h.Join c.config.NetworkPluginConfDir "10-containerd-net.conflist")
            ⟨requestPodCidr r⟩ written]) ∧
      ((UpdateRuntimeConfig h c fs r).events.filter Event.isMkdir = [] ∨
        (UpdateRuntimeConfig h c fs r).events.filter Event.isMkdir =
          [Event.mkdirAll c.config.NetworkPluginConfDir 0o755]) ∧
      ((UpdateRuntimeConfig h c fs r).fs.dirs = fs.dirs ∨
        (UpdateRuntimeConfig h c fs r).fs.dirs =
          (osMkdirAll h fs c.config.NetworkPluginConfDir 0o755).1.dirs) ∧
      (UpdateRuntimeConfig h c fs r).c = c := by
    rcases run_cases h c fs r with ⟨logs, e⟩ | ⟨logs, e⟩ | ⟨logs, e⟩ | ⟨hgen, err, hparse⟩ |
      ⟨hgen, t, err, hparse, hmk⟩ | ⟨hgen, t, err, hparse, hmk, hop⟩ | ⟨hgen, t, hparse, hmk, hop⟩
    · rw [e]; simp
    · rw [e]; simp [Event.isFileWrite, Event.isMkdir]
    · rw [e]; simp [Event.isFileWrite, Event.isMkdir]
    · rw [run_parse_error h c fs r hgen err hparse]
      simp [probeEvents, Event.isFileWrite, Event.isMkdir]
    · rw [run_mkdir_error h c fs r hgen t hparse err hmk]
      refine ⟨fun k _ => osMkdirAll_read _ _ _ _ _, ?_, ?_, Or.inr rfl, rfl⟩
      · simp [probeEvents, Event.isFileWrite]
      · simp [probeEvents, Event.isMkdir]
    · rw [run_open_error h c fs r hgen t hparse hmk err hop]
      refine ⟨fun k _ => osMkdirAll_read _ _ _ _ _, ?_, ?_, Or.inr rfl, rfl⟩
      · simp [probeEvents, Event.isFileWrite, confFilePath, cniConfigFileName]
      · simp [probeEvents, Event.isMkdir]
    · refine ⟨run_generate_frame h c fs r hgen t hparse hmk hop, ?_, ?_, ?_, ?_⟩
      · rw [run_generate h c fs r hgen t hparse hmk hop]
        simp [generateEvents, probeEvents, Event.isFileWrite, confFilePath, cniConfigFileName]
      · rw [run_generate h c fs r hgen t hparse hmk hop]
        simp [generateEvents, probeEvents, Event.isMkdir]
      · rw [run_generate h c fs r hgen t hparse hmk hop]
        exact Or.inr rfl
      · rw [run_generate h c fs r hgen t hparse hmk hop]
  refine ⟨key.1, key.2.1, key.2.2.1, key.2.2.2.1, ?_, ?_, key.2.2.2.2, fun hne => key.1 _ hne⟩
  · intro d hd
    rcases key.2.2.2.1 with hdirs | hdirs
    · rw [hdirs]; exact hd
    · rw [hdirs]; exact osMkdirAll_dirs_mono h fs _ _ d hd
  · intro d hd
    rcases key.2.2.2.1 with hdirs | hdirs
    · rw [hdirs] at hd; exact Or.inl hd
    · rw [hdirs] at hd; exact osMkdirAll_dirs_bound h fs _ _ d hd

/-- On the example node the template lies apart from the generated file and is
the same after a generating call; the directories added are the output
directory and its parent. -/
theorem only_conf_file_and_dir_change_witness :
    exHost.FileOf exConfig.NetworkPluginConfTemplate ≠
        exHost.FileOf (exHost.Join exConfig.NetworkPluginConfDir "10-containerd-net.conflist") ∧
    (UpdateRuntimeConfig exHost ⟨exConfig, cniDown⟩ exFS exRequest).fs.read
        "/etc/containerd/cni.tmpl" = exFS.read "/etc/containerd/cni.tmpl" ∧
    (UpdateRuntimeConfig exHost ⟨exConfig, cniDown⟩ exFS exRequest).events.filter Event.isMkdir =
      [Event.mkdirAll "/etc/cni/net.d" 0o755] ∧
    dirChain "/etc/cni/net.d" = ["/etc", "/etc/cni", "/etc/cni/net.d"] :=
  ⟨by decide,
    (only_conf_file_and_dir_change exHost ⟨exConfig, cniDown⟩ exFS exRequest).2.2.2.2.2.2.2
      (by decide),
    by decide, by decide⟩

/-- C9 as stated fails, twice.  When the configured template path names the
generated file, as the same path or through a `.` element, a generating call
overwrites the template resource.  And the one `MkdirAll` call creates two
directories on a node where the parent of the output directory is missing, one
of them not `NetworkPluginConfDir`. -/
theorem template_resource_overwritten :
    ReachesGeneration ⟨aliasConfig, cniDown⟩ exRequest ∧
    aliasFS.read (exHost.FileOf aliasConfig.NetworkPluginConfTemplate) =
      some (utf8 "subnet=\x7b\x7b.PodCIDR\x7d\x7d;") ∧
    (UpdateRuntimeConfig exHost ⟨aliasConfig, cniDown⟩ aliasFS exRequest).result = .ok {} ∧
    (UpdateRuntimeConfig exHost ⟨aliasConfig, cniDown⟩ aliasFS exRequest).fs.read
        (exHost.FileOf aliasConfig.NetworkPluginConfTemplate) =
      some (utf8 "subnet=10.244.1.0/24;") ∧
    (UpdateRuntimeConfig exHost ⟨aliasConfig, cniDown⟩ aliasFS exRequest).fs.read
        (exHost.FileOf aliasConfig.NetworkPluginConfTemplate) ≠
      aliasFS.read (exHost.FileOf aliasConfig.NetworkPluginConfTemplate) ∧
    dottedConfig.NetworkPluginConfTemplate ≠
      exHost.Join dottedConfig.NetworkPluginConfDir "10-containerd-net.conflist" ∧
    (UpdateRuntimeConfig exHost ⟨dottedConfig, cniDown⟩ aliasFS exRequest).fs.read
        (exHost.FileOf dottedConfig.NetworkPluginConfTemplate) ≠
      aliasFS.read (exHost.FileOf dottedConfig.NetworkPluginConfTemplate) ∧
    exFS.dirs = ["/etc", "/etc/containerd"] ∧
    (UpdateRuntimeConfig exHost ⟨exConfig, cniDown⟩ exFS exRequest).events.filter Event.isMkdir =
      [Event.mkdirAll "/etc/cni/net.d" 0o755] ∧
    (UpdateRuntimeConfig exHost ⟨exConfig, cniDown⟩ exFS exRequest).fs.dirs =
      ["/etc", "/etc/containerd", "/etc/cni", "/etc/cni/net.d"] := by
  refine ⟨by decide, by decide, rfl, by decide, by decide, by decide, by decide, by decide,
    by decide, by decide⟩

/-- C10, as the counterexample forces it: with the same request, service, host
and plugin behaviour on both calls, and a template path that does not name the
generated file (or, more generally, a second call whose parse of the template
gives what the first call's gave), a second call right after the first returns
the result of the first and leaves the filesystem the first one left; so the
generated file holds after the second call what it held after the first,
whatever it held before the first. -/
theorem update_is_idempotent (h : Host) (c : criService) (fs : FS)
    (r : Option UpdateRuntimeConfigRequest)
    (hsame : h.FileOf c.config.NetworkPluginConfTemplate ≠
        h.FileOf (h.Join c.config.NetworkPluginConfDir "10-containerd-net.conflist") ∨
      templateParseFiles h (UpdateRuntimeConfig h c fs r).fs c.config.NetworkPluginConfTemplate =
        templateParseFiles h fs c.config.NetworkPluginConfTemplate) :
    (UpdateRuntimeConfig h (UpdateRuntimeConfig h c fs r).c (UpdateRuntimeConfig h c fs r).fs
        r).result = (UpdateRuntimeConfig h c fs r).result ∧
    (UpdateRuntimeConfig h (UpdateRuntimeConfig h c fs r).c (UpdateRuntimeConfig h c fs r).fs
        r).fs = (UpdateRuntimeConfig h c fs r).fs ∧
    (UpdateRuntimeConfig h (UpdateRuntimeConfig h c fs r).c (UpdateRuntimeConfig h c fs r).fs
        r).fs.read
        (h.FileOf (h.Join c.config.NetworkPluginConfDir "10-containerd-net.conflist")) =
      (UpdateRuntimeConfig h c fs r).fs.read
        (h.FileOf (h.Join c.config.NetworkPluginConfDir "10-containerd-net.conflist")) := by
  have hp : templateParseFiles h (UpdateRuntimeConfig h c fs r).fs
      c.config.NetworkPluginConfTemplate =
      templateParseFiles h fs c.config.NetworkPluginConfTemplate := by
    rcases hsame with hne | heq
    · exact parse_after_run h c fs r _ hne
    · exact heq
  have key : (UpdateRuntimeConfig h (UpdateRuntimeConfig h c fs r).c
        (UpdateRuntimeConfig h c fs r).fs r).result = (UpdateRuntimeConfig h c fs r).result ∧
      (UpdateRuntimeConfig h (UpdateRuntimeConfig h c fs r).c (UpdateRuntimeConfig h c fs r).fs
        r).fs = (UpdateRuntimeConfig h c fs r).fs := by
    rcases run_cases h c fs r with ⟨logs, e⟩ | ⟨logs, e⟩ | ⟨logs, e⟩ | ⟨hgen, err, hparse⟩ |
      ⟨hgen, t, err, hparse, hmk⟩ | ⟨hgen, t, err, hparse, hmk, hop⟩ | ⟨hgen, t, hparse, hmk, hop⟩
    · have e2 := e
      rw [e]; dsimp only; rw [e2]; exact ⟨rfl, rfl⟩
    · have e2 := e
      rw [e]; dsimp only; rw [e2]; exact ⟨rfl, rfl⟩
    · have e2 := e
      rw [e]; dsimp only; rw [e2]; exact ⟨rfl, rfl⟩
    · rw [run_parse_error h c fs r hgen err hparse]
      dsimp only
      rw [run_parse_error h c fs r hgen err hparse]
      exact ⟨rfl, rfl⟩
    · have e1 := run_mkdir_error h c fs r hgen t hparse err hmk
      rw [e1] at hp
      dsimp only at hp
      have hparse2 := hp.trans hparse
      have hidem := osMkdirAll_idem h fs c.config.NetworkPluginConfDir 0o755
      have hmk2 : (osMkdirAll h (osMkdirAll h fs c.config.NetworkPluginConfDir 0o755).1
          c.config.NetworkPluginConfDir 0o755).2 = some err := by rw [hidem]; exact hmk
      rw [e1]
      dsimp only
      rw [run_mkdir_error h c _ r hgen t hparse2 err hmk2]
      dsimp only
      rw [hidem]
      exact ⟨rfl, rfl⟩
    · have e1 := run_open_error h c fs r hgen t hparse hmk err hop
      rw [e1] at hp
      dsimp only at hp
      have hparse2 := hp.trans hparse
      have hidem := osMkdirAll_idem h fs c.config.NetworkPluginConfDir 0o755
      have hmk2 : (osMkdirAll h (osMkdirAll h fs c.config.NetworkPluginConfDir 0o755).1
          c.config.NetworkPluginConfDir 0o755).2 = none := by rw [hidem]; exact hmk
      rw [e1]
      dsimp only
      rw [run_open_error h c _ r hgen t hparse2 hmk2 err hop]
      dsimp only
      rw [hidem]
      exact ⟨rfl, rfl⟩
    · have e1 := run_generate h c fs r hgen t hparse hmk hop
      rw [e1] at hp
      dsimp only at hp
      have hparse2 := hp.trans hparse
      have hmem := osMkdirAll_ok_mem h fs c.config.NetworkPluginConfDir 0o755 hmk
      have hagain := osMkdirAll_of_mem h
        ((osMkdirAll h fs c.config.NetworkPluginConfDir 0o755).1.store
          (h.FileOf (confFilePath h c))
          (writeAt ((fs.read (h.FileOf (confFilePath h c))).getD []) 0
            (t.Execute ⟨requestPodCidr r⟩).1))
        c.config.NetworkPluginConfDir 0o755 hmem
      have hmk2 := congrArg Prod.snd hagain
      dsimp only at hmk2
      rw [e1]
      dsimp only
      rw [run_generate h c _ r hgen t hparse2 hmk2 hop]
      dsimp only
      refine ⟨rfl, ?_⟩
      rw [hagain]
      dsimp only
      rw [FS.read_store_same]
      simp only [Option.getD_some]
      rw [writeAt_zero_writeAt_zero, FS.store_store]
  exact ⟨key.1, key.2, by rw [key.2]⟩

/-- Two calls in a row over the file left by a run for 10.244.100.0/24: the
stale rest stays behind the new content after the first call and the second
call changes nothing. -/
theorem update_is_idempotent_witness :
    exHost.FileOf exConfig.NetworkPluginConfTemplate ≠
        exHost.FileOf (exHost.Join exConfig.NetworkPluginConfDir "10-containerd-net.conflist") ∧
    (UpdateRuntimeConfig exHost ⟨exConfig, cniDown⟩ staleFS exRequest).fs.read
        "/etc/cni/net.d/10-containerd-net.conflist" = some (utf8 "subnet=10.244.1.0/24;4;") ∧
    (UpdateRuntimeConfig exHost ⟨exConfig, cniDown⟩
        (UpdateRuntimeConfig exHost ⟨exConfig, cniDown⟩ staleFS exRequest).fs exRequest).fs =
      (UpdateRuntimeConfig exHost ⟨exConfig, cniDown⟩ staleFS exRequest).fs :=
  ⟨by decide, by decide,
    (update_is_idempotent exHost ⟨exConfig, cniDown⟩ staleFS exRequest
      (Or.inl (by decide))).2.1⟩

/-- C10 as stated fails: when the template path is the path of the generated
file and the template is longer than what it renders, the first call leaves
the end of the template behind the rendered bytes, the second call parses that
content and writes the subnet a second time, so two calls leave another file
than one call, with the same request, configuration and plugin answers. -/
theorem second_call_rewrites_aliased_template :
    ReachesGeneration ⟨aliasConfig, cniDown⟩ exRequest ∧
    commentFS.read "/etc/cni/net.d/10-containerd-net.conflist" =
      some (utf8 "\x7b\x7b/* written by the operator */\x7d\x7dsubnet=\x7b\x7b.PodCIDR\x7d\x7d;") ∧
    (UpdateRuntimeConfig exHost ⟨aliasConfig, cniDown⟩ commentFS exRequest).result = .ok {} ∧
    (UpdateRuntimeConfig exHost ⟨aliasConfig, cniDown⟩ commentFS exRequest).fs.read
        "/etc/cni/net.d/10-containerd-net.conflist" =
      some (utf8 "subnet=10.244.1.0/24;perator */\x7d\x7dsubnet=\x7b\x7b.PodCIDR\x7d\x7d;") ∧
    (UpdateRuntimeConfig exHost ⟨aliasConfig, cniDown⟩
        (UpdateRuntimeConfig exHost ⟨aliasConfig, cniDown⟩ commentFS exRequest).fs
        exRequest).result = .ok {} ∧
    (UpdateRuntimeConfig exHost ⟨aliasConfig, cniDown⟩
        (UpdateRuntimeConfig exHost ⟨aliasConfig, cniDown⟩ commentFS exRequest).fs
        exRequest).fs.read "/etc/cni/net.d/10-containerd-net.conflist" =
      some (utf8 "subnet=10.244.1.0/24;perator */\x7d\x7dsubnet=10.244.1.0/24;") ∧
    (UpdateRuntimeConfig exHost ⟨aliasConfig, cniDown⟩
        (UpdateRuntimeConfig exHost ⟨aliasConfig, cniDown⟩ commentFS exRequest).fs
        exRequest).fs ≠
      (UpdateRuntimeConfig exHost ⟨aliasConfig, cniDown⟩ commentFS exRequest).fs := by
  refine ⟨by decide, by decide, rfl, by decide, rfl, by decide, by decide⟩

end CRI
